import Mathlib

/-!
# Formal model of `tiiramuunnin.py`

A shallow embedding of the tiira.fi observation CSV converter
(`src/tiiramuunnin.py`).  The program reads a `#`-separated CSV export,
parses Finnish `dd.mm.yyyy` dates, fills missing counts with zero,
reprojects ETRS-TM35FIN planar coordinates to WGS-84 geographic
coordinates, prunes columns, and writes a `,`-separated CSV file.

Cell values are modelled by an explicit `Value` type (pandas dtypes are
abstracted: numeric cells are exact rationals, dates are calendar
triples, missing data is `Value.na`).  Data frames are a column-name
list plus a row list.  The external geodetic library (pyproj) is
modelled from the spec by an executable rational-arithmetic
implementation of the standard inverse transverse-Mercator series.
-/

set_option maxRecDepth 100000
set_option linter.unusedVariables false

namespace Tiira

/-! ## Python-style string primitives (over `List Char`) -/

/-- Decimal digit character for `n % 10`. -/
def digitChar (n : Nat) : Char := Char.ofNat (48 + n % 10)

/-- Fuel-driven decimal rendering of a natural number (fuel keeps the
recursion structural so the kernel can evaluate it). -/
def natDigitsAux (fuel n : Nat) : List Char :=
  match fuel with
  | 0 => []
  | fuel + 1 => if n < 10 then [digitChar n] else natDigitsAux fuel (n / 10) ++ [digitChar (n % 10)]

/-- Decimal rendering of a natural number. -/
def natRender (n : Nat) : String := ⟨natDigitsAux (n + 1) n⟩

/-- Decimal rendering of an integer. -/
def intRender (i : Int) : String :=
  if i < 0 then "-" ++ natRender i.natAbs else natRender i.natAbs

/-- Python `str.split(sep)` for a one-character separator: splits on every
occurrence, `"" ↦ [""]`, adjacent separators give empty fields. -/
def splitChar (sep : Char) (l : List Char) : List (List Char) :=
  l.foldr
    (fun c acc =>
      if c = sep then [] :: acc
      else
        match acc with
        | [] => [[c]]
        | f :: rest => (c :: f) :: rest)
    [[]]

/-- Python `str.split(sep)` on `String`. -/
def pySplit (sep : Char) (s : String) : List String :=
  (splitChar sep s.data).map String.mk

/-- Python `sep.join(xs)`. -/
def pyJoin (sep : String) : List String → String
  | [] => ""
  | [x] => x
  | x :: xs => x ++ sep ++ pyJoin sep xs

/-! ## Cell values, errors, data frames -/

/-- One cell of an observation table: string, integer, floating-point
(modelled as an exact rational), calendar date, or missing (`NaN`/`NaT`). -/
inductive Value where
  | str (s : String)
  | int (n : Int)
  | num (q : ℚ)
  | date (y m d : Nat)
  | na
deriving DecidableEq

/-- Python exceptions relevant to the program. -/
inductive PyErr where
  | keyError (key : String)
  | typeError (msg : String)
  | valueError (msg : String)
  | ioError
deriving DecidableEq

/-- An in-memory observation table: ordered column names and rows of cells
(each row lists the cells in column order). -/
structure DataFrame where
  cols : List String
  rows : List (List Value)
deriving DecidableEq

/-- Well-formedness: every row has exactly one cell per column. -/
def DataFrame.WF (df : DataFrame) : Prop :=
  ∀ r ∈ df.rows, r.length = df.cols.length

/-- Index of a column name (first occurrence), if present. -/
def idxOf? (c : String) : List String → Option Nat
  | [] => none
  | x :: xs => if x = c then some 0 else (idxOf? c xs).map (· + 1)

/-- Column read `df[c]` as a list of cells, if column `c` exists. -/
def getCol (df : DataFrame) (c : String) : Option (List Value) :=
  (idxOf? c df.cols).map fun i => df.rows.map fun r => r.getD i Value.na

/-- Cell at row `i` of column `c`, if both exist. -/
def getCell (df : DataFrame) (c : String) (i : Nat) : Option Value :=
  (getCol df c).bind fun col => col[i]?

/-- Column assignment `df[c] = vals`: overwrite column `c` (or append it if absent, as pandas
column assignment does). -/
def setCol (df : DataFrame) (c : String) (vals : List Value) : DataFrame :=
  match idxOf? c df.cols with
  | some i => ⟨df.cols, List.zipWith (fun r v => r.set i v) df.rows vals⟩
  | none => ⟨df.cols ++ [c], List.zipWith (fun r v => r ++ [v]) df.rows vals⟩

/-- Column selection `df[cs]`; raises `KeyError` when a requested column is
missing (as pandas list-indexing does).  The result is a fresh copy. -/
def select (df : DataFrame) (cs : List String) : Except PyErr DataFrame :=
  match cs.find? fun c => (idxOf? c df.cols).isNone with
  | some c => .error (.keyError c)
  | none => .ok ⟨cs, df.rows.map fun r => cs.map fun c => r.getD ((idxOf? c df.cols).getD 0) Value.na⟩

/-- Column removal `df.drop([c], axis=1)`; raises `KeyError` when absent.  Returns a new
frame. -/
def dropCol (df : DataFrame) (c : String) : Except PyErr DataFrame :=
  match idxOf? c df.cols with
  | none => .error (.keyError c)
  | some i => .ok ⟨df.cols.eraseIdx i, df.rows.map fun r => r.eraseIdx i⟩

/-! ## Finnish date parsing (`finnish_date_converter`, source lines 27-30) -/

/-- Gregorian leap-year rule. -/
def isLeapYear (y : Nat) : Bool :=
  y % 4 == 0 && (y % 100 != 0 || y % 400 == 0)

/-- Days in a month of the Gregorian calendar. -/
def daysInMonth (y m : Nat) : Nat :=
  if m = 2 then (if isLeapYear y then 29 else 28)
  else if m = 4 ∨ m = 6 ∨ m = 9 ∨ m = 11 then 30
  else 31

/-- All-digit token to its numeric value (`none` on empty or non-digit). -/
def decDigits? (l : List Char) : Option Nat :=
  if l ≠ [] ∧ l.all Char.isDigit then
    some (l.foldl (fun a c => a * 10 + (c.toNat - 48)) 0)
  else none

/-- Model of `datetime.strptime(s, "%d.%m.%Y")` as invoked through
`pd.to_datetime(s, format="%d.%m.%Y")`: three dot-separated digit groups
(day and month at most two digits, year at most four), which must form a
valid calendar date inside the `pd.Timestamp` year range. -/
def strptimeFinnish (s : String) : Option (Nat × Nat × Nat) :=
  match splitChar '.' s.data with
  | [ds, ms, ys] =>
    match decDigits? ds, decDigits? ms, decDigits? ys with
    | some d, some m, some y =>
      if ds.length ≤ 2 ∧ ms.length ≤ 2 ∧ ys.length ≤ 4 ∧
          1 ≤ d ∧ 1 ≤ m ∧ m ≤ 12 ∧ d ≤ daysInMonth y m ∧
          1678 ≤ y ∧ y ≤ 2261 then
        some (y, m, d)
      else none
    | _, _, _ => none
  | _ => none

/-- The converter `finnish_date_converter` (source lines 27-30): the empty string (falsy
in Python) yields `None`, i.e. a null date; otherwise
`pd.to_datetime(date, format="%d.%m.%Y", errors="coerce")`, which yields
the parsed date, or `NaT` when the text does not parse.  Both `None` and
`NaT` are modelled as `Value.na`. -/
def finnish_date_converter (date : String) : Value :=
  if date = "" then Value.na
  else
    match strptimeFinnish date with
    | some (y, m, d) => Value.date y m d
    | none => Value.na

/-! ## Geodetic transformation

`convert_geographical` delegates the reprojection to
`pyproj.Transformer.from_crs("epsg:3067", "epsg:4326")`.  That library is
not part of this repository, so the transformation is modelled from the
spec: the standard inverse transverse-Mercator (Krüger series) on the
GRS-80 ellipsoid with the ETRS-TM35FIN projection parameters
(central meridian 27°E, scale 0.9996, false easting 500000), returning
coordinates in the EPSG:4326 axis order (latitude, longitude) — exactly
what pyproj returns for this CRS pair without `always_xy`.  All
arithmetic is exact rational arithmetic truncated to 120 decimal places
after each operation; the transcendental functions are truncated Taylor
series, accurate here to far better than the 10⁻⁶ degrees the spec asks
about. -/

/-- Truncate a rational to 120 decimal places (keeps kernel evaluation
cheap while far exceeding the accuracy the claims need). -/
def qtrunc (q : ℚ) : ℚ := (Rat.floor (q * 10 ^ 120) : ℚ) / 10 ^ 120

/-- Horner evaluation of a polynomial (coefficients in ascending order),
truncating after each step. -/
def hornerQ (coeffs : List ℚ) (u : ℚ) : ℚ :=
  coeffs.foldr (fun c acc => qtrunc (c + u * acc)) 0

/-- Taylor coefficients of `sin` (as a series in `x²`, times `x`). -/
def sinCoeffs (n : Nat) : List ℚ :=
  (List.range n).map fun k => (-1 : ℚ) ^ k / ((2 * k + 1).factorial : ℚ)

/-- Taylor coefficients of `cos` (as a series in `x²`). -/
def cosCoeffs (n : Nat) : List ℚ :=
  (List.range n).map fun k => (-1 : ℚ) ^ k / ((2 * k).factorial : ℚ)

/-- Taylor coefficients of `sinh` (as a series in `x²`, times `x`). -/
def sinhCoeffs (n : Nat) : List ℚ :=
  (List.range n).map fun k => 1 / ((2 * k + 1).factorial : ℚ)

/-- Taylor coefficients of `cosh` (as a series in `x²`). -/
def coshCoeffs (n : Nat) : List ℚ :=
  (List.range n).map fun k => 1 / ((2 * k).factorial : ℚ)

/-- Taylor coefficients of `arctan` (as a series in `x²`, times `x`). -/
def atanCoeffs (n : Nat) : List ℚ :=
  (List.range n).map fun k => (-1 : ℚ) ^ k / ((2 * k + 1 : Nat) : ℚ)

/-- Truncated Taylor `sin` (30 terms: ample for arguments up to `8.4`). -/
def sinQ (x : ℚ) : ℚ := qtrunc (x * hornerQ (sinCoeffs 30) (qtrunc (x * x)))

/-- Truncated Taylor `cos`. -/
def cosQ (x : ℚ) : ℚ := hornerQ (cosCoeffs 30) (qtrunc (x * x))

/-- Truncated Taylor `sinh`. -/
def sinhQ (x : ℚ) : ℚ := qtrunc (x * hornerQ (sinhCoeffs 30) (qtrunc (x * x)))

/-- Truncated Taylor `cosh`. -/
def coshQ (x : ℚ) : ℚ := hornerQ (coshCoeffs 30) (qtrunc (x * x))

/-- Truncated Taylor `arctan` for `|x| ≤ 1` (80 terms). -/
def atanSeries (x : ℚ) : ℚ := qtrunc (x * hornerQ (atanCoeffs 80) (qtrunc (x * x)))

/-- Pi to 50 decimal places. -/
def piQ : ℚ := 314159265358979323846264338327950288419716939937510 / 10 ^ 50

/-- Total `arctan` on ℚ, via `arctan x = ±π/2 − arctan (1/x)` outside
`[-1, 1]`. -/
def atanQ (x : ℚ) : ℚ :=
  if 1 < x then qtrunc (piQ / 2 - atanSeries (qtrunc (1 / x)))
  else if x < -1 then qtrunc (-(piQ / 2) - atanSeries (qtrunc (1 / x)))
  else atanSeries x

/-- Newton iteration for square roots (fuel-driven). -/
def sqrtNewton (q : ℚ) : Nat → ℚ → ℚ
  | 0, x => x
  | fuel + 1, x => if x ≤ 0 then 0 else sqrtNewton q fuel (qtrunc ((x + q / x) / 2))

/-- Approximate square root of a non-negative rational. -/
def sqrtQ (q : ℚ) : ℚ := if q ≤ 0 then 0 else sqrtNewton q 80 (1 + q / 2)

/-- Third flattening `n` of the GRS-80 ellipsoid
(`a = 6378137`, `f = 1/298.257222101`). -/
def nTM : ℚ := (1000000000 / 298257222101 : ℚ) / (2 - 1000000000 / 298257222101)

/-- Rectifying radius `A` of the Krüger series. -/
def ATM : ℚ := qtrunc (6378137 / (1 + nTM) * (1 + nTM ^ 2 / 4 + nTM ^ 4 / 64))

/-- Inverse-series coefficient β₁. -/
def beta1 : ℚ := qtrunc (nTM / 2 - 2 * nTM ^ 2 / 3 + 37 * nTM ^ 3 / 96 - nTM ^ 4 / 360)

/-- Inverse-series coefficient β₂. -/
def beta2 : ℚ := qtrunc (nTM ^ 2 / 48 + nTM ^ 3 / 15 - 437 * nTM ^ 4 / 1440)

/-- Inverse-series coefficient β₃. -/
def beta3 : ℚ := qtrunc (17 * nTM ^ 3 / 480 - 37 * nTM ^ 4 / 840)

/-- Inverse-series coefficient β₄. -/
def beta4 : ℚ := qtrunc (4397 * nTM ^ 4 / 161280)

/-- Conformal-to-geographic latitude coefficient δ₁. -/
def delta1 : ℚ := qtrunc (2 * nTM - 2 * nTM ^ 2 / 3 - 2 * nTM ^ 3 + 116 * nTM ^ 4 / 45)

/-- Conformal-to-geographic latitude coefficient δ₂. -/
def delta2 : ℚ := qtrunc (7 * nTM ^ 2 / 3 - 8 * nTM ^ 3 / 5 - 227 * nTM ^ 4 / 45)

/-- Conformal-to-geographic latitude coefficient δ₃. -/
def delta3 : ℚ := qtrunc (56 * nTM ^ 3 / 15 - 136 * nTM ^ 4 / 35)

/-- Conformal-to-geographic latitude coefficient δ₄. -/
def delta4 : ℚ := qtrunc (4279 * nTM ^ 4 / 630)

/-- Modelled from the spec: the EPSG:3067 → EPSG:4326 transformation that
`pyproj.Transformer.from_crs("epsg:3067", "epsg:4326").transform` performs
(the pyproj library itself is external to the repository).  Takes
(easting, northing) in metres and returns (latitude, longitude) in
degrees — the EPSG:4326 axis order, which puts latitude first. -/
def tm35fin_to_wgs84 (E N : ℚ) : ℚ × ℚ :=
  let k0A : ℚ := qtrunc ((9996 / 10000 : ℚ) * ATM)
  let xi := qtrunc (N / k0A)
  let eta := qtrunc ((E - 500000) / k0A)
  let xip := qtrunc (xi - (beta1 * sinQ (2 * xi) * coshQ (2 * eta)
      + beta2 * sinQ (4 * xi) * coshQ (4 * eta)
      + beta3 * sinQ (6 * xi) * coshQ (6 * eta)
      + beta4 * sinQ (8 * xi) * coshQ (8 * eta)))
  let etap := qtrunc (eta - (beta1 * cosQ (2 * xi) * sinhQ (2 * eta)
      + beta2 * cosQ (4 * xi) * sinhQ (4 * eta)
      + beta3 * cosQ (6 * xi) * sinhQ (6 * eta)
      + beta4 * cosQ (8 * xi) * sinhQ (8 * eta)))
  let sh := sinhQ etap
  let cx := cosQ xip
  let lam := atanQ (qtrunc (sh / cx))
  let tauP := qtrunc (sinQ xip / sqrtQ (qtrunc (sh * sh + cx * cx)))
  let chi := atanQ tauP
  let phi := qtrunc (chi + delta1 * sinQ (2 * chi) + delta2 * sinQ (4 * chi)
      + delta3 * sinQ (6 * chi) + delta4 * sinQ (8 * chi))
  (qtrunc (phi * 180 / piQ), qtrunc (27 + lam * 180 / piQ))

/-! ## The geographic-coordinates conversion (source lines 58-88) -/

/-- The eight columns retained by the conversion (source lines 68-77). -/
def selected_fields : List String :=
  ["Laji", "Pvm1", "Kunta", "Paikka", "X-koord", "Y-koord", "rivityyppi", "rivejä"]

/-- Model of `", ".join([kunta, paikka])` on one row (source line 80); `str.join`
raises `TypeError` when an element is not a string (e.g. a `NaN`). -/
def mergePlace : Value → Value → Except PyErr Value
  | .str ku, .str pa => .ok (.str (pyJoin ", " [ku, pa]))
  | _, _ => .error (.typeError "sequence item: expected str instance")

/-- Row-by-row effectful map: apply `f` to each element in order, the
first exception aborting the traversal (the semantics of a pandas
row-wise `apply`). -/
def mapExcept {α β : Type} (f : α → Except PyErr β) : List α → Except PyErr (List β)
  | [] => .ok []
  | a :: l =>
    match f a, mapExcept f l with
    | .ok b, .ok bs => .ok (b :: bs)
    | .error e, _ => .error e
    | .ok _, .error e => .error e

/-- The merged place column
(`df[["Kunta", "Paikka"]].apply(lambda x: ", ".join(x), axis=1)`). -/
def mergePlaceColumn (df : DataFrame) : Except PyErr (List Value) :=
  match getCol df "Kunta", getCol df "Paikka" with
  | some kus, some pas => mapExcept (fun p => mergePlace p.1 p.2) (List.zip kus pas)
  | _, _ => .error (.keyError "Kunta")

/-- Numeric reading of a cell (pyproj accepts integers and floats; other
cell contents make the row transformation fail). -/
def toRat? : Value → Option ℚ
  | .int n => some (n : ℚ)
  | .num q => some q
  | _ => none

/-- One row's (easting, northing) operand pair for the transformer
(`x[0]` is the X-koord cell, `x[1]` the Y-koord cell, source line 84). -/
def coordPair (x y : Value) : Except PyErr (ℚ × ℚ) :=
  match toRat? x, toRat? y with
  | some a, some b => .ok (a, b)
  | _, _ => .error (.typeError "coordinate is not a number")

/-- The list of per-row coordinate operand pairs
(`df[["X-koord", "Y-koord"]].apply(..., axis=1)`). -/
def coordColumn (df : DataFrame) : Except PyErr (List (ℚ × ℚ)) :=
  match getCol df "X-koord", getCol df "Y-koord" with
  | some xs, some ys => mapExcept (fun p => coordPair p.1 p.2) (List.zip xs ys)
  | _, _ => .error (.keyError "X-koord")

/-- The conversion `convert_geographical` (source lines 58-88): select the eight retained
columns, merge Kunta into Paikka, drop Kunta, then overwrite
`[Y-koord, X-koord]` with the transformer's (first, second) return values
computed from the row's (X-koord, Y-koord) planar pair. -/
def convert_geographical (df : DataFrame) : Except PyErr DataFrame :=
  match select df selected_fields with
  | .error e => .error e
  | .ok t1 =>
    match mergePlaceColumn t1 with
    | .error e => .error e
    | .ok merged =>
      let t2 := setCol t1 "Paikka" merged
      match dropCol t2 "Kunta" with
      | .error e => .error e
      | .ok t3 =>
        match coordColumn t3 with
        | .error e => .error e
        | .ok pairs =>
          let trans := pairs.map fun p => tm35fin_to_wgs84 p.1 p.2
          .ok (setCol (setCol t3 "Y-koord" (trans.map fun p => Value.num p.1))
                "X-koord" (trans.map fun p => Value.num p.2))

/-- Heap embedding of `convert_geographical`, for the mutation claims:
tables live in a heap of data frames (addresses are indices into the
list).  pandas list-indexing (`df = df[selected_fields]`, line 78) and
`drop` (line 81) return fresh copies, which the local name `df` is
rebound to; the column assignments (lines 80 and 82) mutate the table the
local name currently denotes, in place.  Returns the final heap and the
address of the result. -/
def convert_geographical_prog (h : List DataFrame) (a : Nat) :
    Except PyErr (List DataFrame × Nat) :=
  match h[a]? with
  | none => .error (.keyError "invalid table address")
  | some df0 =>
    match select df0 selected_fields with
    | .error e => .error e
    | .ok t1 =>
      let b := h.length
      let h1 := h ++ [t1]
      match mergePlaceColumn t1 with
      | .error e => .error e
      | .ok merged =>
        let t2 := setCol t1 "Paikka" merged
        let h2 := h1.set b t2
        match dropCol t2 "Kunta" with
        | .error e => .error e
        | .ok t3 =>
          let c := h2.length
          let h3 := h2 ++ [t3]
          match coordColumn t3 with
          | .error e => .error e
          | .ok pairs =>
            let trans := pairs.map fun p => tm35fin_to_wgs84 p.1 p.2
            let t5 := setCol (setCol t3 "Y-koord" (trans.map fun p => Value.num p.1))
                "X-koord" (trans.map fun p => Value.num p.2)
            .ok (h3.set c t5, c)

/-- Sample ingested table used by witnesses: one observation at the
spec's reference point. -/
def sample_df : DataFrame :=
  ⟨["Laji", "Pvm1", "Kunta", "Paikka", "X-koord", "Y-koord", "rivityyppi", "rivejä", "Määrä"],
    [[Value.str "naurulokki", Value.date 2020 2 1, Value.str "Helsinki", Value.str "Keskuspuisto",
      Value.int 385000, Value.int 6672000, Value.str "1", Value.int 5, Value.int 0]]⟩

/-! ## Writer (`write_csv`, source lines 91-104) -/

/-- Zero-padded ten-digit fractional part (writer helper). -/
def fracPad10 (n : Nat) : String :=
  let ds := natDigitsAux (n + 1) n
  ⟨List.replicate (10 - ds.length) '0' ++ ds⟩

/-- Fixed float format `"%.10f"` (source line 20): render with exactly ten
digits after the decimal point, rounding to the nearest (the exact tie
rule is immaterial here: ties never arise from the values involved). -/
def floatFormat10 (q : ℚ) : String :=
  let n : ℤ := Rat.floor (q * 10 ^ 10 + 1 / 2)
  let m := n.natAbs
  let s := natRender (m / 10 ^ 10) ++ "." ++ fracPad10 (m % 10 ^ 10)
  if n < 0 then "-" ++ s else s

/-- Two-digit zero-padded rendering (for ISO date components). -/
def pad2 (n : Nat) : String :=
  if n < 10 then "0" ++ natRender n else natRender n

/-- How `DataFrame.to_csv` renders one cell before quoting: strings
verbatim, integers in decimal, floats through `float_format="%.10f"`,
dates in ISO `YYYY-MM-DD` form, missing values (`NaN`/`NaT`) as the
empty string. -/
def renderValue : Value → String
  | .str s => s
  | .int n => intRender n
  | .num q => floatFormat10 q
  | .date y m d => natRender y ++ "-" ++ pad2 m ++ "-" ++ pad2 d
  | .na => ""

/-- csv.QUOTE_MINIMAL: a field is quoted iff it contains the separator, a
double quote, or a line break. -/
def needsQuote (sep : Char) (l : List Char) : Bool :=
  l.any fun c => c == sep || c == '"' || c == '\n' || c == '\r'

/-- Double every double quote (the csv escape inside a quoted field). -/
def escapeQuotes : List Char → List Char
  | [] => []
  | c :: cs => if c = '"' then '"' :: '"' :: escapeQuotes cs else c :: escapeQuotes cs

/-- Render one field with minimal quoting (character-list level). -/
def renderFieldL (sep : Char) (f : List Char) : List Char :=
  if needsQuote sep f then '"' :: (escapeQuotes f ++ ['"']) else f

/-- Render one field with minimal quoting. -/
def renderField (sep : Char) (s : String) : String :=
  ⟨renderFieldL sep s.data⟩

/-- File content produced by
`df.to_csv(filename, index=False, sep=",", float_format="%.10f")`:
header line then one line per row, each line `\n`-terminated. -/
def write_csv_content (df : DataFrame) : String :=
  let header := pyJoin "," (df.cols.map fun c => renderField ',' c)
  let lines := df.rows.map fun r => pyJoin "," (r.map fun v => renderField ',' (renderValue v))
  pyJoin "\n" (header :: lines) ++ "\n"

/-- The writer `write_csv` (source lines 91-104): serialize the table and write it.
An `IOError` is caught inside the function, printing
"Tallennus epäonnistui.", and is never propagated to the caller.  The
file system is modelled by the `writeOk` parameter (whether writing the
given path succeeds); the encoding parameter only affects the byte-level
encoding of the text, which is below this model.  Returns the printed
messages and the (filename, content) pairs actually written. -/
def write_csv (writeOk : String → Bool) (df : DataFrame) (filename : String)
    (encoding : String) : List String × List (String × String) :=
  if writeOk filename then ([], [(filename, write_csv_content df)])
  else (["Tallennus epäonnistui."], [])

/-! ## Ingestor (`read_csv`, source lines 33-55) -/

/-- Numeric value of a digit list (no validation). -/
def digitsVal (l : List Char) : Nat :=
  l.foldl (fun a c => a * 10 + (c.toNat - 48)) 0

/-- Integer-shaped raw field (optional minus sign, then digits). -/
def intParse? (l : List Char) : Option Int :=
  match l with
  | '-' :: rest => (decDigits? rest).map fun n => -(n : Int)
  | _ => (decDigits? l).map fun n => (n : Int)

/-- Unsigned decimal-point number (`"1."`, `".5"`, `"1.25"`). -/
def decimalCore (l : List Char) : Option ℚ :=
  match splitChar '.' l with
  | [a, b] =>
    if (a ≠ [] ∨ b ≠ []) ∧ a.all Char.isDigit ∧ b.all Char.isDigit then
      some ((digitsVal a : ℚ) + (digitsVal b : ℚ) / 10 ^ b.length)
    else none
  | _ => none

/-- Decimal-point-shaped raw field with optional sign. -/
def decimalParse? (l : List Char) : Option ℚ :=
  match l with
  | '-' :: rest => (decimalCore rest).map Neg.neg
  | _ => decimalCore l

/-- pandas type inference for one raw field (restricted to the shapes the
program relies on): empty fields become missing values (`keep_default_na`),
integer-shaped fields integers, decimal-shaped fields floats, everything
else strings. -/
def inferValue (s : String) : Value :=
  if s = "" then .na
  else
    match intParse? s.data with
    | some n => .int n
    | none =>
      match decimalParse? s.data with
      | some q => .num q
      | none => .str s

/-- Best-effort model of `parse_dates=["Tallennusaika"]`: the save
timestamps in tiira exports are `YYYY-MM-DD HH:MM:SS`; we record the
calendar-date part and leave anything unrecognized as inferred text. -/
def parseIsoTimestamp (s : String) : Value :=
  match (splitChar ' ' s.data).map (splitChar '-') with
  | [y, m, d] :: _ =>
    match decDigits? y, decDigits? m, decDigits? d with
    | some yv, some mv, some dv => .date yv mv dv
    | _, _, _ => inferValue s
  | _ => inferValue s

/-- Unquoted-field scan: consume up to the separator; returns the field
and the remainder (which starts with the separator, if any remains). -/
def takeUnquoted (sep : Char) : List Char → List Char × List Char
  | [] => ([], [])
  | c :: cs =>
    if c = sep then ([], c :: cs)
    else
      let fr := takeUnquoted sep cs
      (c :: fr.1, fr.2)

/-- Quoted-field scan (after the opening quote): `""` is an escaped
quote, a lone `"` closes the field; returns the field and the remainder
after the closing quote. -/
def takeQuoted : List Char → List Char × List Char
  | [] => ([], [])
  | c :: cs =>
    if c = '"' then
      match cs with
      | [] => ([], [])
      | c2 :: cs2 =>
        if c2 = '"' then
          let fr := takeQuoted cs2
          ('"' :: fr.1, fr.2)
        else ([], cs)
    else
      let fr := takeQuoted cs
      (c :: fr.1, fr.2)

/-- Split one csv line into raw fields (quote-aware, fuel-driven). -/
def splitFieldsAux (sep : Char) : Nat → List Char → List (List Char)
  | 0, _ => []
  | n + 1, l =>
    let fr := if l.head? = some '"' then takeQuoted l.tail else takeUnquoted sep l
    match fr.2 with
    | [] => [fr.1]
    | _ :: rest => fr.1 :: splitFieldsAux sep n rest

/-- Split one csv line into raw fields. -/
def splitFields (sep : Char) (l : List Char) : List (List Char) :=
  splitFieldsAux sep (l.length + 1) l

/-- Value of one parsed cell: the `Pvm1`/`Pvm2` converters (source lines
42-45) receive the raw field text; `Tallennusaika` goes through
`parse_dates`; every other column gets plain type inference. -/
def cellValue (c : String) (s : String) : Value :=
  if c = "Pvm1" ∨ c = "Pvm2" then finnish_date_converter s
  else if c = "Tallennusaika" then parseIsoTimestamp s
  else inferValue s

/-- Model of `pd.read_csv(csv_file, sep="#", parse_dates=["Tallennusaika"],
keep_default_na=True, converters={"Pvm1": ..., "Pvm2": ...})` on decoded
file content: split lines (blank lines are skipped), split each line into
`#`-separated fields, and type the cells per column.  Ragged lines abort
parsing with an error. -/
def parse_csv (content : String) : Except PyErr DataFrame :=
  match (splitChar '\n' content.data).filter (· ≠ []) with
  | [] => .error (.valueError "No columns to parse from file")
  | header :: rest =>
    let cols := (splitFields '#' header).map String.mk
    let rawRows := rest.map fun line => (splitFields '#' line).map String.mk
    if rawRows.all fun r => r.length = cols.length then
      .ok ⟨cols, rawRows.map fun r => (List.zip cols r).map fun p => cellValue p.1 p.2⟩
    else .error (.valueError "Error tokenizing data")

/-- The ingestor `read_csv` (source lines 33-55) on decoded file content: parse, then
`df["Määrä"] = df["Määrä"].fillna(0)` (line 54), which raises `KeyError`
when the column is absent.  The utf-8 / iso-8859-15 encoding fallback
happens below the text level and is modelled by taking the decoded
content as input. -/
def read_csv (content : String) : Except PyErr DataFrame :=
  match parse_csv content with
  | .error e => .error e
  | .ok df =>
    match getCol df "Määrä" with
    | none => .error (.keyError "Määrä")
    | some col => .ok (setCol df "Määrä" (col.map fun v => if v = Value.na then Value.int 0 else v))

/-! ## Driver (`__main__`, source lines 107-175) -/

/-- Outcome of the driver's ingestion step (source lines 157-163): a
successful read proceeds to the conversion loop; an `IOError` prints the
file-open message and exits with code 1; any other exception is not
caught there and terminates the run as an unhandled exception. -/
inductive IngestOutcome where
  | proceed (df : DataFrame)
  | exitCode1
  | uncaught (e : PyErr)
deriving DecidableEq

/-- The `try/except IOError` around `read_csv` (source lines 157-163). -/
def driver_ingest (r : Except PyErr DataFrame) : IngestOutcome :=
  match r with
  | .ok df => .proceed df
  | .error .ioError => .exitCode1
  | .error e => .uncaught e

/-- The conversion registry (source lines 109-111). -/
def conversions : List (String × (DataFrame → Except PyErr DataFrame)) :=
  [("maantieteelliset_koordinaatit", convert_geographical)]

/-- Output-filename derivation (source lines 167-169):
`filename = outfilename.split(".")`,
`filename.insert(1, "_" + conversion + ".")`, `"".join(filename)`. -/
def derive_filename (outfilename conversion : String) : String :=
  let parts := pySplit '.' outfilename
  pyJoin "" (parts.take 1 ++ ["_" ++ conversion ++ "."] ++ parts.drop 1)

/-- One iteration of the driver loop (source lines 165-175): derive the
output filename, look up and run the conversion — a `KeyError` raised by
the lookup (or from inside the conversion) is caught by the
`except KeyError` handler, which prints the invalid-type message and
moves on — then print the progress message, write, and print the
completion message.  Any non-`KeyError` exception propagates. -/
def run_conversion (writeOk : String → Bool) (df : DataFrame)
    (outfilename encoding conversion : String) :
    Except PyErr (List String × List (String × String)) :=
  let filename := derive_filename outfilename conversion
  match List.lookup conversion conversions with
  | none => .ok (["Virheellinen muunnostyyppi " ++ conversion ++ "."], [])
  | some f =>
    match f df with
    | .error (.keyError _) => .ok (["Virheellinen muunnostyyppi " ++ conversion ++ "."], [])
    | .error e => .error e
    | .ok result =>
      let w := write_csv writeOk result filename encoding
      .ok (("Suoritetaan muunnos : " ++ conversion ++ ".") :: w.1
          ++ [filename ++ " : muunnettu tiedosto valmis."], w.2)

/-- The driver loop over all requested conversion types (source line
165): each iteration's messages and written files accumulate; an
uncaught exception aborts the remainder. -/
def run_conversions (writeOk : String → Bool) (df : DataFrame)
    (outfilename encoding : String) :
    List String → Except PyErr (List String × List (String × String))
  | [] => .ok ([], [])
  | conversion :: rest =>
    match run_conversion writeOk df outfilename encoding conversion with
    | .error e => .error e
    | .ok (msgs, files) =>
      match run_conversions writeOk df outfilename encoding rest with
      | .error e => .error e
      | .ok (msgs2, files2) => .ok (msgs ++ msgs2, files ++ files2)

/-- Join `charJoin sep` is `pyJoin` at the character-list level. -/
def charJoin (sep : List Char) : List (List Char) → List Char
  | [] => []
  | [x] => x
  | x :: xs => x ++ sep ++ charJoin sep xs

/-- Plain csv re-parse of file content: line splitting and quote-aware
field splitting only, no type inference.  Used to compare the Writer's
output at the text level. -/
def parse_fields (sep : Char) (content : String) : List (List String) :=
  ((splitChar '\n' content.data).filter (· ≠ [])).map fun line =>
    (splitFields sep line).map String.mk

/-- A piece of text free of line breaks. -/
def noLineBreak (l : List Char) : Prop := '\n' ∉ l ∧ '\r' ∉ l

instance (l : List Char) : Decidable (noLineBreak l) :=
  decidable_of_iff ('\n' ∉ l ∧ '\r' ∉ l) Iff.rfl

example : finnish_date_converter "01.02.2020" = Value.date 2020 2 1 := by decide
example : finnish_date_converter "" = Value.na := by decide
example : finnish_date_converter "31.02.2020" = Value.na := by decide
example : finnish_date_converter "29.02.2020" = Value.date 2020 2 29 := by decide
example : finnish_date_converter "kissa" = Value.na := by decide
example : pySplit '.' "a.b.c" = ["a", "b", "c"] := by decide
example : natRender 2020 = "2020" := by decide
example : intRender (-35) = "-35" := by decide

/-! ## Claim C4: the date converter -/

/-- C4: during ingestion the Pvm1/Pvm2 cells go through
`finnish_date_converter`, which maps `"01.02.2020"` to the calendar date
2020-02-01, maps the empty string to a null date marker rather than
raising, and maps any unparsable non-empty text to a null date marker
rather than failing. -/
theorem C4_finnish_date_converter :
    finnish_date_converter "01.02.2020" = Value.date 2020 2 1 ∧
    finnish_date_converter "" = Value.na ∧
    (∀ s : String, s ≠ "" → strptimeFinnish s = none → finnish_date_converter s = Value.na) ∧
    (∀ c : String, c = "Pvm1" ∨ c = "Pvm2" → ∀ s, cellValue c s = finnish_date_converter s) := by
  refine ⟨by decide, by decide, ?_, ?_⟩
  · intro s hs hp
    unfold finnish_date_converter
    rw [if_neg hs, hp]
  · intro c hc s
    unfold cellValue
    rw [if_pos hc]

/-- Witness for C4 at concrete inputs. -/
theorem C4_witness :
    finnish_date_converter "koskikara" = Value.na ∧
    cellValue "Pvm1" "x" = finnish_date_converter "x" :=
  ⟨C4_finnish_date_converter.2.2.1 "koskikara" (by decide) (by decide),
    C4_finnish_date_converter.2.2.2 "Pvm1" (Or.inl rfl) "x"⟩

/-! ## Claim C9: output-filename derivation -/

/-- C9 fails as stated for base filenames with more than one dot: the
code splits on every dot and rejoins with the empty string, so
`"a.b.c"` with conversion type `"t"` yields `"a_t.bc"` (the second dot is
lost), not `"a.b_t.c"` (insertion before the extension). -/
theorem C9_counterexample :
    derive_filename "a.b.c" "t" = "a_t.bc" ∧ derive_filename "a.b.c" "t" ≠ "a.b_t.c" := by
  constructor <;> decide

/-- C9 (amended): for base output filenames containing exactly one dot,
the driver inserts `_<conversion-type>` before the extension. -/
theorem C9_derive_filename (outfilename conversion stem ext : String)
    (h : pySplit '.' outfilename = [stem, ext]) :
    derive_filename outfilename conversion = stem ++ "_" ++ conversion ++ "." ++ ext := by
  unfold derive_filename
  rw [h]
  show pyJoin "" [stem, "_" ++ conversion ++ ".", ext] = _
  show stem ++ "" ++ ("_" ++ conversion ++ "." ++ "" ++ ext) = _
  apply String.ext
  simp [String.data_append]

/-- Witness for C9 (amended) at the spec's example input. -/
theorem C9_witness :
    derive_filename "result.csv" "geographic_coordinates" = "result_geographic_coordinates.csv" :=
  (C9_derive_filename "result.csv" "geographic_coordinates" "result" "csv" (by decide)).trans
    (by decide)

/-! ## Claim C10: missing Määrä column -/

/-- C10: when the decoded input parses but has no `Määrä` column, the
fill step `df["Määrä"].fillna(0)` raises a `KeyError`; the driver's
ingestion handler catches only `IOError`, so the run ends as an
unhandled exception, not through the file-open message and exit-code-1
path. -/
theorem C10_missing_maara (content : String) (df : DataFrame)
    (hparse : parse_csv content = .ok df)
    (hno : getCol df "Määrä" = none) :
    read_csv content = .error (.keyError "Määrä") ∧
    driver_ingest (read_csv content) = .uncaught (.keyError "Määrä") ∧
    driver_ingest (read_csv content) ≠ .exitCode1 := by
  have h1 : read_csv content = .error (.keyError "Määrä") := by
    simp only [read_csv, hparse, hno]
  refine ⟨h1, by rw [h1]; rfl, by rw [h1]; decide⟩

/-- Witness for C10: a parseable file with species and timestamp columns
but no count column. -/
theorem C10_witness :
    read_csv "Laji#Tallennusaika\nvaris#2020-02-01 10:00:00\n" = .error (.keyError "Määrä") :=
  (C10_missing_maara "Laji#Tallennusaika\nvaris#2020-02-01 10:00:00\n"
    ⟨["Laji", "Tallennusaika"], [[Value.str "varis", Value.date 2020 2 1]]⟩
    (by rfl) (by decide)).1

/-! ## Claim C8: write-failure handling -/

/-- C8 fails in its last part: here every write fails, the failure
message "Tallennus epäonnistui." is printed — and the written-file
completion message is printed anyway (the writer caught the `IOError`
internally, so the driver cannot tell the write failed), with nothing
actually written. -/
theorem C8_counterexample :
    run_conversions (fun _ => false) ⟨selected_fields, []⟩ "tiira_muunnettu.csv" "utf-8"
        ["maantieteelliset_koordinaatit"] =
      .ok (["Suoritetaan muunnos : maantieteelliset_koordinaatit.",
          "Tallennus epäonnistui.",
          "tiira_muunnettu_maantieteelliset_koordinaatit.csv : muunnettu tiedosto valmis."], []) ∧
    "tiira_muunnettu_maantieteelliset_koordinaatit.csv : muunnettu tiedosto valmis." ∈
      ["Suoritetaan muunnos : maantieteelliset_koordinaatit.",
        "Tallennus epäonnistui.",
        "tiira_muunnettu_maantieteelliset_koordinaatit.csv : muunnettu tiedosto valmis."] := by
  exact ⟨by rfl, by decide⟩

/-- C8 (amended): when writing the output file fails, the `IOError` is
caught inside the writer and the failure message is printed, and the
program continues to the next requested conversion — but the
written-file completion message is printed after every attempted write,
whether or not it succeeded, because the writer swallows the error. -/
theorem C8_write_failure (writeOk : String → Bool) (df result : DataFrame)
    (f : DataFrame → Except PyErr DataFrame)
    (outfilename encoding conversion : String) (rest : List String)
    (msgs2 : List String) (files2 : List (String × String))
    (hlook : List.lookup conversion conversions = some f)
    (hconv : f df = .ok result)
    (hfail : writeOk (derive_filename outfilename conversion) = false)
    (hrest : run_conversions writeOk df outfilename encoding rest = .ok (msgs2, files2)) :
    run_conversions writeOk df outfilename encoding (conversion :: rest) =
      .ok (["Suoritetaan muunnos : " ++ conversion ++ ".",
          "Tallennus epäonnistui.",
          derive_filename outfilename conversion ++ " : muunnettu tiedosto valmis."]
          ++ msgs2, files2) := by
  simp only [run_conversions, run_conversion, hlook, hconv, write_csv, hfail, hrest,
    Bool.false_eq_true, if_false, List.cons_append, List.nil_append]

/-- Witness for C8 (amended): a failing write followed by an invalid
conversion type; the completion message appears despite the failure and
the loop still reaches the second request. -/
theorem C8_witness :
    run_conversions (fun _ => false) ⟨selected_fields, []⟩ "tiira_muunnettu.csv" "utf-8"
        ["maantieteelliset_koordinaatit", "nonexistent"] =
      .ok (["Suoritetaan muunnos : maantieteelliset_koordinaatit.",
          "Tallennus epäonnistui.",
          "tiira_muunnettu_maantieteelliset_koordinaatit.csv : muunnettu tiedosto valmis.",
          "Virheellinen muunnostyyppi nonexistent."], []) := by
  have h := C8_write_failure (fun _ => false) ⟨selected_fields, []⟩
    ⟨["Laji", "Pvm1", "Paikka", "X-koord", "Y-koord", "rivityyppi", "rivejä"], []⟩
    convert_geographical "tiira_muunnettu.csv" "utf-8" "maantieteelliset_koordinaatit"
    ["nonexistent"] ["Virheellinen muunnostyyppi nonexistent."] []
    (by rfl) (by rfl) (by rfl) (by rfl)
  exact h.trans (by rfl)

/-! ## Claim C3: missing counts become zero -/

/-- Membership `a ∈ l` from a successful index lookup. -/
theorem mem_of_getElem?' {α : Type} {l : List α} {i : Nat} {a : α} (h : l[i]? = some a) :
    a ∈ l := by
  obtain ⟨hlt, he⟩ := List.getElem?_eq_some.1 h
  exact he ▸ List.getElem_mem hlt

/-- A column index is within the column list. -/
theorem idxOf?_lt_length {c : String} : ∀ {cols : List String} {i : Nat},
    idxOf? c cols = some i → i < cols.length := by
  intro cols
  induction cols with
  | nil => intro i h; simp [idxOf?] at h
  | cons x xs ih =>
    intro i h
    unfold idxOf? at h
    by_cases hx : x = c
    · rw [if_pos hx] at h
      cases h
      simp
    · rw [if_neg hx] at h
      cases hidx : idxOf? c xs with
      | none => rw [hidx] at h; simp at h
      | some j =>
        rw [hidx] at h
        cases h
        have := ih hidx
        simp
        omega

/-- Every row of a parsed table has one cell per column. -/
theorem parse_csv_wf (content : String) (df : DataFrame)
    (h : parse_csv content = .ok df) : df.WF := by
  unfold parse_csv at h
  split at h
  · exact absurd h (by simp)
  · dsimp only at h
    split at h
    case isTrue hall =>
      cases h
      intro r hr
      obtain ⟨raw, hrawmem, hreq⟩ := List.mem_map.1 hr
      have hlen := of_decide_eq_true ((List.all_eq_true.1 hall) raw hrawmem)
      subst hreq
      simp [List.length_zip, hlen]
    case isFalse => exact absurd h (by simp)

/-- Reading back a written column after `setCol`. -/
theorem getCol_setCol_self (df : DataFrame) (c : String) (vals raw : List Value)
    (hwf : df.WF) (hget : getCol df c = some raw) (hlen : vals.length = raw.length) :
    getCol (setCol df c vals) c = some vals := by
  unfold getCol at hget
  obtain ⟨i, hidx, hraw⟩ := Option.map_eq_some'.1 hget
  subst hraw
  have hlen2 : vals.length = df.rows.length := by simpa using hlen
  unfold setCol
  rw [hidx]
  unfold getCol
  simp only [hidx, Option.map_some', Option.some.injEq]
  apply List.ext_getElem?
  intro j
  rw [List.getElem?_map, List.getElem?_zipWith]
  cases hr : df.rows[j]? with
  | none =>
    have hrow : df.rows.length ≤ j := List.getElem?_eq_none_iff.1 hr
    have hv : vals[j]? = none := List.getElem?_eq_none (by omega)
    rw [hv]
    rfl
  | some r =>
    cases hv : vals[j]? with
    | none =>
      have hvlen : vals.length ≤ j := List.getElem?_eq_none_iff.1 hv
      have hnone : df.rows[j]? = none := List.getElem?_eq_none (by omega)
      rw [hnone] at hr
      exact Option.noConfusion hr
    | some v =>
      have hrlen : r.length = df.cols.length := hwf r (mem_of_getElem?' hr)
      have hi : i < r.length := hrlen ▸ idxOf?_lt_length hidx
      dsimp only
      simp only [Option.map_some', Option.some.injEq]
      rw [List.getD_eq_getElem?_getD, List.getElem?_set_self hi]
      rfl

/-- The column names survive `setCol` on an existing column. -/
theorem setCol_cols (df : DataFrame) (c : String) (vals : List Value) (i : Nat)
    (hidx : idxOf? c df.cols = some i) : (setCol df c vals).cols = df.cols := by
  unfold setCol
  rw [hidx]

/-- C3: after ingestion the count column is never null — entries that
were absent in the source (parsed as missing values; an empty raw field
parses to `Value.na`) are integer 0, and present entries are unchanged. -/
theorem C3_maara_fill (content : String) (df out : DataFrame)
    (hparse : parse_csv content = .ok df)
    (hread : read_csv content = .ok out) :
    cellValue "Määrä" "" = Value.na ∧
    ∃ raw filled, getCol df "Määrä" = some raw ∧ getCol out "Määrä" = some filled ∧
      filled.length = raw.length ∧
      (∀ i : Nat, raw[i]? = some Value.na → filled[i]? = some (Value.int 0)) ∧
      (∀ (i : Nat) (v : Value), raw[i]? = some v → v ≠ Value.na → filled[i]? = some v) ∧
      ∀ v ∈ filled, v ≠ Value.na := by
  refine ⟨by decide, ?_⟩
  cases hget : getCol df "Määrä" with
  | none =>
    simp only [read_csv, hparse, hget] at hread
    exact Except.noConfusion hread
  | some raw =>
    simp only [read_csv, hparse, hget, Except.ok.injEq] at hread
    subst hread
    refine ⟨raw, raw.map fun v => if v = Value.na then Value.int 0 else v, rfl, ?_, by simp, ?_, ?_, ?_⟩
    · exact getCol_setCol_self df "Määrä" _ raw (parse_csv_wf content df hparse) hget (by simp)
    · intro i hi
      rw [List.getElem?_map, hi]
      simp
    · intro i v hi hv
      rw [List.getElem?_map, hi]
      simp [hv]
    · intro v hv
      simp only [List.mem_map] at hv
      obtain ⟨w, _, hw⟩ := hv
      subst hw
      by_cases hna : w = Value.na <;> simp [hna]

/-- Witness for C3: a file whose second row has an empty count field. -/
theorem C3_witness :
    cellValue "Määrä" "" = Value.na ∧
    ∃ raw filled,
      getCol (⟨["Määrä", "Tallennusaika"],
        [[Value.int 5, Value.str "x"], [Value.na, Value.str "x"]]⟩ : DataFrame) "Määrä" = some raw ∧
      getCol (⟨["Määrä", "Tallennusaika"],
        [[Value.int 5, Value.str "x"], [Value.int 0, Value.str "x"]]⟩ : DataFrame) "Määrä" = some filled ∧
      filled.length = raw.length ∧
      (∀ i : Nat, raw[i]? = some Value.na → filled[i]? = some (Value.int 0)) ∧
      (∀ (i : Nat) (v : Value), raw[i]? = some v → v ≠ Value.na → filled[i]? = some v) ∧
      ∀ v ∈ filled, v ≠ Value.na :=
  C3_maara_fill "Määrä#Tallennusaika\n5#x\n#x\n"
    ⟨["Määrä", "Tallennusaika"], [[Value.int 5, Value.str "x"], [Value.na, Value.str "x"]]⟩
    ⟨["Määrä", "Tallennusaika"], [[Value.int 5, Value.str "x"], [Value.int 0, Value.str "x"]]⟩
    (by rfl) (by rfl)

/-! ## Claims C5 and C7: no mutation of the input table; determinism -/

/-- Whatever `convert_geographical_prog` returns, the pure
`convert_geographical` of the input table succeeded with the table now
stored at the returned address. -/
theorem prog_result (h : List DataFrame) (a : Nat) (h' : List DataFrame) (c : Nat)
    (hrun : convert_geographical_prog h a = .ok (h', c)) :
    ∃ df0 t, h[a]? = some df0 ∧ convert_geographical df0 = .ok t ∧ h'[c]? = some t := by
  unfold convert_geographical_prog at hrun
  cases ha : h[a]? with
  | none => rw [ha] at hrun; exact Except.noConfusion hrun
  | some df0 =>
    rw [ha] at hrun
    dsimp only at hrun
    cases hsel : select df0 selected_fields with
    | error e => rw [hsel] at hrun; exact Except.noConfusion hrun
    | ok t1 =>
      rw [hsel] at hrun
      dsimp only at hrun
      cases hmerge : mergePlaceColumn t1 with
      | error e => rw [hmerge] at hrun; exact Except.noConfusion hrun
      | ok merged =>
        rw [hmerge] at hrun
        dsimp only at hrun
        cases hdrop : dropCol (setCol t1 "Paikka" merged) "Kunta" with
        | error e => rw [hdrop] at hrun; exact Except.noConfusion hrun
        | ok t3 =>
          rw [hdrop] at hrun
          dsimp only at hrun
          cases hcoord : coordColumn t3 with
          | error e => rw [hcoord] at hrun; exact Except.noConfusion hrun
          | ok pairs =>
            rw [hcoord] at hrun
            dsimp only at hrun
            simp only [Except.ok.injEq, Prod.mk.injEq] at hrun
            obtain ⟨hh, hc⟩ := hrun
            subst hh
            subst hc
            refine ⟨df0,
              setCol (setCol t3 "Y-koord"
                  ((pairs.map fun p => tm35fin_to_wgs84 p.1 p.2).map fun p => Value.num p.1))
                "X-koord" ((pairs.map fun p => tm35fin_to_wgs84 p.1 p.2).map fun p => Value.num p.2),
              rfl, ?_, ?_⟩
            · simp only [convert_geographical, hsel, hmerge, hdrop, hcoord]
            · rw [List.getElem?_set_self (by simp)]

/-- The program `convert_geographical_prog` only writes to freshly allocated
addresses: every pre-existing heap entry is untouched, and the result
address is fresh. -/
theorem prog_preserves (h : List DataFrame) (a : Nat) (h' : List DataFrame) (c : Nat)
    (hrun : convert_geographical_prog h a = .ok (h', c)) :
    (∀ i, i < h.length → h'[i]? = h[i]?) ∧ c = h.length + 1 := by
  unfold convert_geographical_prog at hrun
  cases ha : h[a]? with
  | none => rw [ha] at hrun; exact Except.noConfusion hrun
  | some df0 =>
    rw [ha] at hrun
    dsimp only at hrun
    cases hsel : select df0 selected_fields with
    | error e => rw [hsel] at hrun; exact Except.noConfusion hrun
    | ok t1 =>
      rw [hsel] at hrun
      dsimp only at hrun
      cases hmerge : mergePlaceColumn t1 with
      | error e => rw [hmerge] at hrun; exact Except.noConfusion hrun
      | ok merged =>
        rw [hmerge] at hrun
        dsimp only at hrun
        cases hdrop : dropCol (setCol t1 "Paikka" merged) "Kunta" with
        | error e => rw [hdrop] at hrun; exact Except.noConfusion hrun
        | ok t3 =>
          rw [hdrop] at hrun
          dsimp only at hrun
          cases hcoord : coordColumn t3 with
          | error e => rw [hcoord] at hrun; exact Except.noConfusion hrun
          | ok pairs =>
            rw [hcoord] at hrun
            dsimp only at hrun
            simp only [Except.ok.injEq, Prod.mk.injEq] at hrun
            obtain ⟨hh, hc⟩ := hrun
            subst hh
            subst hc
            have hlen2 : ((h ++ [t1]).set h.length (setCol t1 "Paikka" merged)).length
                = h.length + 1 := by simp
            refine ⟨?_, by simp [hlen2]⟩
            intro i hi
            rw [List.getElem?_set_ne (by omega : ¬ _ = _), List.getElem?_append_left (by simp; omega),
              List.getElem?_set_ne (by omega : ¬ _ = _), List.getElem?_append_left (by omega)]

/-- When the input address holds a table the pure conversion accepts,
the heap program succeeds. -/
theorem prog_total (h : List DataFrame) (a : Nat) (df0 t : DataFrame)
    (ha : h[a]? = some df0) (hok : convert_geographical df0 = .ok t) :
    ∃ h' c, convert_geographical_prog h a = .ok (h', c) := by
  unfold convert_geographical at hok
  cases hsel : select df0 selected_fields with
  | error e => rw [hsel] at hok; exact Except.noConfusion hok
  | ok t1 =>
    rw [hsel] at hok
    dsimp only at hok
    cases hmerge : mergePlaceColumn t1 with
    | error e => rw [hmerge] at hok; exact Except.noConfusion hok
    | ok merged =>
      rw [hmerge] at hok
      dsimp only at hok
      cases hdrop : dropCol (setCol t1 "Paikka" merged) "Kunta" with
      | error e => rw [hdrop] at hok; exact Except.noConfusion hok
      | ok t3 =>
        rw [hdrop] at hok
        dsimp only at hok
        cases hcoord : coordColumn t3 with
        | error e => rw [hcoord] at hok; exact Except.noConfusion hok
        | ok pairs =>
          cases hrun : convert_geographical_prog h a with
          | ok p => exact ⟨p.1, p.2, rfl⟩
          | error e =>
            simp only [convert_geographical_prog, ha, hsel, hmerge, hdrop, hcoord] at hrun
            exact Except.noConfusion hrun

/-- C5: the geographic-coordinates conversion produces its result at a
fresh address and leaves the ingested table — and every other
pre-existing table — exactly as it was: pandas list-indexing copies, so
the in-place column assignments only ever touch the fresh copies. -/
theorem C5_no_mutation (h : List DataFrame) (a : Nat) (h' : List DataFrame) (c : Nat)
    (hrun : convert_geographical_prog h a = .ok (h', c)) :
    h'[a]? = h[a]? ∧ (∀ i, i < h.length → h'[i]? = h[i]?) ∧ h.length ≤ c := by
  obtain ⟨hpres, hc⟩ := prog_preserves h a h' c hrun
  obtain ⟨df0, t, ha, _, _⟩ := prog_result h a h' c hrun
  have halt : a < h.length := (List.getElem?_eq_some.1 ha).1
  exact ⟨hpres a halt, hpres, by omega⟩

/-- Witness for C5: a one-table heap; the run allocates two copies and
the original remains at address 0. -/
theorem C5_witness :
    convert_geographical_prog [(⟨selected_fields, []⟩ : DataFrame)] 0 =
      .ok ([(⟨selected_fields, []⟩ : DataFrame), ⟨selected_fields, []⟩,
        ⟨["Laji", "Pvm1", "Paikka", "X-koord", "Y-koord", "rivityyppi", "rivejä"], []⟩], 2) ∧
    ([(⟨selected_fields, []⟩ : DataFrame), ⟨selected_fields, []⟩,
        ⟨["Laji", "Pvm1", "Paikka", "X-koord", "Y-koord", "rivityyppi", "rivejä"], []⟩][0]?
      = [(⟨selected_fields, []⟩ : DataFrame)][0]?) := by
  have hrun : convert_geographical_prog [(⟨selected_fields, []⟩ : DataFrame)] 0 =
      .ok ([(⟨selected_fields, []⟩ : DataFrame), ⟨selected_fields, []⟩,
        ⟨["Laji", "Pvm1", "Paikka", "X-koord", "Y-koord", "rivityyppi", "rivejä"], []⟩], 2) := by
    rfl
  exact ⟨hrun, (C5_no_mutation _ _ _ _ hrun).1⟩

/-- C7: running the conversion twice on the same input table (the second
run starting from the heap the first one left behind) produces equal
result tables, hence byte-identical written files. -/
theorem C7_deterministic (h : List DataFrame) (a : Nat) (h1 : List DataFrame) (c1 : Nat)
    (hrun1 : convert_geographical_prog h a = .ok (h1, c1)) :
    ∃ h2 c2, convert_geographical_prog h1 a = .ok (h2, c2) ∧
      h2[c2]? = h1[c1]? ∧
      (h2[c2]?).map write_csv_content = (h1[c1]?).map write_csv_content := by
  obtain ⟨df0, t, ha, hok, hres1⟩ := prog_result h a h1 c1 hrun1
  have halt : a < h.length := (List.getElem?_eq_some.1 ha).1
  have ha1 : h1[a]? = some df0 := by
    rw [(prog_preserves h a h1 c1 hrun1).1 a halt]
    exact ha
  obtain ⟨h2, c2, hrun2⟩ := prog_total h1 a df0 t ha1 hok
  obtain ⟨df0', t', ha2, hok2, hres2⟩ := prog_result h1 a h2 c2 hrun2
  have hdf : df0' = df0 := by
    rw [ha1] at ha2
    exact (Option.some.injEq _ _ ▸ ha2).symm
  subst hdf
  have ht : t' = t := by
    rw [hok] at hok2
    exact (Except.ok.injEq _ _ ▸ hok2).symm
  subst ht
  refine ⟨h2, c2, hrun2, ?_, ?_⟩
  · rw [hres1, hres2]
  · rw [hres1, hres2]

/-- Witness for C7: rerunning on the heap the first run produced. -/
theorem C7_witness :
    ∃ h2 c2, convert_geographical_prog
        [(⟨selected_fields, []⟩ : DataFrame), ⟨selected_fields, []⟩,
          ⟨["Laji", "Pvm1", "Paikka", "X-koord", "Y-koord", "rivityyppi", "rivejä"], []⟩] 0 =
        .ok (h2, c2) ∧
      h2[c2]? = [(⟨selected_fields, []⟩ : DataFrame), ⟨selected_fields, []⟩,
          ⟨["Laji", "Pvm1", "Paikka", "X-koord", "Y-koord", "rivityyppi", "rivejä"], []⟩][2]? ∧
      (h2[c2]?).map write_csv_content =
        ([(⟨selected_fields, []⟩ : DataFrame), ⟨selected_fields, []⟩,
          ⟨["Laji", "Pvm1", "Paikka", "X-koord", "Y-koord", "rivityyppi", "rivejä"], []⟩][2]?).map
          write_csv_content :=
  C7_deterministic [(⟨selected_fields, []⟩ : DataFrame)] 0 _ 2 (by rfl)

/-! ## Claims C1 and C2: the transformed table, row by row -/

/-- Success of `mapExcept`, element by element. -/
theorem mapExcept_ok {α β : Type} {f : α → Except PyErr β} :
    ∀ {l : List α} {out : List β}, mapExcept f l = .ok out →
      out.length = l.length ∧
      ∀ (i : Nat) (a : α), l[i]? = some a → ∃ b, f a = .ok b ∧ out[i]? = some b := by
  intro l
  induction l with
  | nil =>
    intro out h
    cases h
    exact ⟨rfl, by intro i a ha; simp at ha⟩
  | cons a l ih =>
    intro out h
    unfold mapExcept at h
    cases hfa : f a with
    | error e => rw [hfa] at h; exact Except.noConfusion h
    | ok b =>
      rw [hfa] at h
      cases hrest : mapExcept f l with
      | error e => rw [hrest] at h; exact Except.noConfusion h
      | ok bs =>
        rw [hrest] at h
        cases h
        obtain ⟨ihl, ihp⟩ := ih hrest
        refine ⟨by simp [ihl], ?_⟩
        intro i x hx
        cases i with
        | zero =>
          simp only [List.getElem?_cons_zero, Option.some.injEq] at hx
          subst hx
          exact ⟨b, hfa, by simp⟩
        | succ j =>
          simp only [List.getElem?_cons_succ] at hx ⊢
          exact ihp j x hx

/-- Unpacking a successful cell read. -/
theorem getCell_eq_some {df : DataFrame} {c : String} {i : Nat} {v : Value}
    (h : getCell df c i = some v) :
    ∃ k r, idxOf? c df.cols = some k ∧ df.rows[i]? = some r ∧ r.getD k Value.na = v := by
  unfold getCell getCol at h
  cases hidx : idxOf? c df.cols with
  | none => rw [hidx] at h; simp at h
  | some k =>
    rw [hidx] at h
    simp only [Option.map_some', Option.some_bind] at h
    rw [List.getElem?_map] at h
    cases hr : df.rows[i]? with
    | none => rw [hr] at h; simp at h
    | some r =>
      rw [hr] at h
      simp only [Option.map_some', Option.some.injEq] at h
      exact ⟨k, r, rfl, rfl, h⟩

/-- Merging with `", ".join` succeeds exactly on two strings. -/
theorem mergePlace_ok {x y v : Value} (h : mergePlace x y = .ok v) :
    ∃ ku pa, x = Value.str ku ∧ y = Value.str pa ∧ v = Value.str (pyJoin ", " [ku, pa]) := by
  cases x <;> cases y <;> first
    | (rename_i ku pa
       refine ⟨ku, pa, rfl, rfl, ?_⟩
       simp only [mergePlace, Except.ok.injEq] at h
       exact h.symm)
    | (exact absurd h (by simp [mergePlace]))

/-- A successful coordinate pairing means both cells were numeric. -/
theorem coordPair_ok {x y : Value} {p : ℚ × ℚ} (h : coordPair x y = .ok p) :
    toRat? x = some p.1 ∧ toRat? y = some p.2 := by
  unfold coordPair at h
  cases hx : toRat? x with
  | none => rw [hx] at h; exact Except.noConfusion h
  | some a =>
    rw [hx] at h
    cases hy : toRat? y with
    | none => rw [hy] at h; exact Except.noConfusion h
    | some b =>
      rw [hy] at h
      simp only [Except.ok.injEq] at h
      subst h
      exact ⟨rfl, rfl⟩

/-- Master description of a successful `convert_geographical` run: the
output columns, the row count, and — for every input row — the merged
place string and the reprojected coordinate cells, with the remaining
columns passed through unchanged. -/
theorem convert_pointwise (df out : DataFrame)
    (hconv : convert_geographical df = .ok out) :
    out.cols = ["Laji", "Pvm1", "Paikka", "X-koord", "Y-koord", "rivityyppi", "rivejä"] ∧
    out.rows.length = df.rows.length ∧
    ∀ (i : Nat) (r : List Value), df.rows[i]? = some r →
      ∃ (ku pa : String) (x y : ℚ) (xv yv : Value),
        getCell df "Kunta" i = some (Value.str ku) ∧
        getCell df "Paikka" i = some (Value.str pa) ∧
        getCell df "X-koord" i = some xv ∧ toRat? xv = some x ∧
        getCell df "Y-koord" i = some yv ∧ toRat? yv = some y ∧
        getCell out "Paikka" i = some (Value.str (pyJoin ", " [ku, pa])) ∧
        getCell out "Y-koord" i = some (Value.num (tm35fin_to_wgs84 x y).1) ∧
        getCell out "X-koord" i = some (Value.num (tm35fin_to_wgs84 x y).2) ∧
        getCell out "Laji" i = getCell df "Laji" i ∧
        getCell out "Pvm1" i = getCell df "Pvm1" i ∧
        getCell out "rivityyppi" i = getCell df "rivityyppi" i ∧
        getCell out "rivejä" i = getCell df "rivejä" i := by
  unfold convert_geographical at hconv
  cases hsel : select df selected_fields with
  | error e => rw [hsel] at hconv; exact Except.noConfusion hconv
  | ok t1 =>
    rw [hsel] at hconv
    dsimp only at hconv
    cases hmerge : mergePlaceColumn t1 with
    | error e => rw [hmerge] at hconv; exact Except.noConfusion hconv
    | ok merged =>
      rw [hmerge] at hconv
      dsimp only at hconv
      cases hdrop : dropCol (setCol t1 "Paikka" merged) "Kunta" with
      | error e => rw [hdrop] at hconv; exact Except.noConfusion hconv
      | ok t3 =>
        rw [hdrop] at hconv
        dsimp only at hconv
        cases hcoord : coordColumn t3 with
        | error e => rw [hcoord] at hconv; exact Except.noConfusion hconv
        | ok pairs =>
          rw [hcoord] at hconv
          dsimp only at hconv
          simp only [Except.ok.injEq] at hconv
          -- unpack the selection
          unfold select at hsel
          cases hfind : selected_fields.find? fun c => (idxOf? c df.cols).isNone with
          | some c => rw [hfind] at hsel; exact Except.noConfusion hsel
          | none =>
            rw [hfind] at hsel
            simp only [Except.ok.injEq] at hsel
            subst hsel
            have hmem : ∀ c ∈ selected_fields, ∃ k, idxOf? c df.cols = some k := by
              intro c hc
              have hno := List.find?_eq_none.1 hfind c hc
              cases hk : idxOf? c df.cols with
              | none => exact absurd (by rw [hk]; rfl) hno
              | some k => exact ⟨k, rfl⟩
            obtain ⟨iL, hiL⟩ := hmem "Laji" (by decide)
            obtain ⟨iP1, hiP1⟩ := hmem "Pvm1" (by decide)
            obtain ⟨iK, hiK⟩ := hmem "Kunta" (by decide)
            obtain ⟨iPa, hiPa⟩ := hmem "Paikka" (by decide)
            obtain ⟨iX, hiX⟩ := hmem "X-koord" (by decide)
            obtain ⟨iY, hiY⟩ := hmem "Y-koord" (by decide)
            obtain ⟨iT, hiT⟩ := hmem "rivityyppi" (by decide)
            obtain ⟨iR, hiR⟩ := hmem "rivejä" (by decide)
            set R1 := df.rows.map (fun r =>
              List.map (fun c => r.getD ((idxOf? c df.cols).getD 0) Value.na) selected_fields)
              with hR1
            replace hmerge : mapExcept (fun p => mergePlace p.1 p.2)
                (List.zip (R1.map fun r => r.getD 2 Value.na)
                  (R1.map fun r => r.getD 3 Value.na)) = .ok merged := hmerge
            replace hdrop : (Except.ok
                (⟨["Laji", "Pvm1", "Paikka", "X-koord", "Y-koord", "rivityyppi", "rivejä"],
                  (List.zipWith (fun r v => r.set 3 v) R1 merged).map fun r => r.eraseIdx 2⟩
                  : DataFrame) : Except PyErr DataFrame) = .ok t3 := hdrop
            simp only [Except.ok.injEq] at hdrop
            subst hdrop
            set R3 := (List.zipWith (fun r v => r.set 3 v) R1 merged).map
              (fun r => r.eraseIdx 2) with hR3
            replace hcoord : mapExcept (fun p => coordPair p.1 p.2)
                (List.zip (R3.map fun r => r.getD 3 Value.na)
                  (R3.map fun r => r.getD 4 Value.na)) = .ok pairs := hcoord
            replace hconv : (⟨["Laji", "Pvm1", "Paikka", "X-koord", "Y-koord", "rivityyppi",
                "rivejä"],
                List.zipWith (fun r v => r.set 3 v)
                  (List.zipWith (fun r v => r.set 4 v) R3
                    ((pairs.map fun p => tm35fin_to_wgs84 p.1 p.2).map fun p => Value.num p.1))
                  ((pairs.map fun p => tm35fin_to_wgs84 p.1 p.2).map fun p => Value.num p.2)⟩
                : DataFrame) = out := hconv
            set TR := pairs.map (fun p => tm35fin_to_wgs84 p.1 p.2) with hTR
            set ROWS := List.zipWith (fun r v => r.set 3 v)
              (List.zipWith (fun r v => r.set 4 v) R3 (TR.map fun p => Value.num p.1))
              (TR.map fun p => Value.num p.2) with hROWS
            subst hconv
            obtain ⟨hlm, hpm⟩ := mapExcept_ok hmerge
            obtain ⟨hlc, hpc⟩ := mapExcept_ok hcoord
            have e1 : R1.length = df.rows.length := by rw [hR1]; simp
            have e2 : merged.length = df.rows.length := by
              simp only [List.length_zip, List.length_map, e1, min_self] at hlm
              exact hlm
            have e3 : R3.length = df.rows.length := by
              rw [hR3]
              simp [List.length_zipWith, e1, e2]
            have e4 : pairs.length = df.rows.length := by
              simp only [List.length_zip, List.length_map, e3, min_self] at hlc
              exact hlc
            refine ⟨rfl, ?_, ?_⟩
            · rw [hROWS, hTR]
              simp [List.length_zipWith, e3, e4]
            · intro i r hri
              have h1 : R1[i]? = some
                  [r.getD iL Value.na, r.getD iP1 Value.na, r.getD iK Value.na,
                    r.getD iPa Value.na, r.getD iX Value.na, r.getD iY Value.na,
                    r.getD iT Value.na, r.getD iR Value.na] := by
                rw [hR1, List.getElem?_map, hri]
                simp only [Option.map_some', Option.some.injEq]
                show List.map _ selected_fields = _
                rw [show List.map (fun c => r.getD ((idxOf? c df.cols).getD 0) Value.na)
                    selected_fields =
                  [r.getD ((idxOf? "Laji" df.cols).getD 0) Value.na,
                    r.getD ((idxOf? "Pvm1" df.cols).getD 0) Value.na,
                    r.getD ((idxOf? "Kunta" df.cols).getD 0) Value.na,
                    r.getD ((idxOf? "Paikka" df.cols).getD 0) Value.na,
                    r.getD ((idxOf? "X-koord" df.cols).getD 0) Value.na,
                    r.getD ((idxOf? "Y-koord" df.cols).getD 0) Value.na,
                    r.getD ((idxOf? "rivityyppi" df.cols).getD 0) Value.na,
                    r.getD ((idxOf? "rivejä" df.cols).getD 0) Value.na] from rfl]
                rw [hiL, hiP1, hiK, hiPa, hiX, hiY, hiT, hiR]
                rfl
              have hku : (R1.map fun r => r.getD 2 Value.na)[i]? = some (r.getD iK Value.na) := by
                rw [List.getElem?_map, h1]
                rfl
              have hpa : (R1.map fun r => r.getD 3 Value.na)[i]? = some (r.getD iPa Value.na) := by
                rw [List.getElem?_map, h1]
                rfl
              have hzip1 : (List.zip (R1.map fun r => r.getD 2 Value.na)
                  (R1.map fun r => r.getD 3 Value.na))[i]?
                  = some (r.getD iK Value.na, r.getD iPa Value.na) := by
                rw [List.zip_eq_zipWith, List.getElem?_zipWith, hku, hpa]
              obtain ⟨mv, hmv, hmergedi⟩ := hpm i _ hzip1
              obtain ⟨ku, pa, hkv, hpv, hmv'⟩ := mergePlace_ok hmv
              subst hmv'
              have hkv2 : r.getD iK Value.na = Value.str ku := hkv
              have hpv2 : r.getD iPa Value.na = Value.str pa := hpv
              have hR3i : R3[i]? = some
                  [r.getD iL Value.na, r.getD iP1 Value.na,
                    Value.str (pyJoin ", " [ku, pa]), r.getD iX Value.na, r.getD iY Value.na,
                    r.getD iT Value.na, r.getD iR Value.na] := by
                rw [hR3, List.getElem?_map, List.getElem?_zipWith, h1, hmergedi]
                rfl
              have hx3 : (R3.map fun r => r.getD 3 Value.na)[i]? = some (r.getD iX Value.na) := by
                rw [List.getElem?_map, hR3i]
                rfl
              have hy3 : (R3.map fun r => r.getD 4 Value.na)[i]? = some (r.getD iY Value.na) := by
                rw [List.getElem?_map, hR3i]
                rfl
              have hzip2 : (List.zip (R3.map fun r => r.getD 3 Value.na)
                  (R3.map fun r => r.getD 4 Value.na))[i]?
                  = some (r.getD iX Value.na, r.getD iY Value.na) := by
                rw [List.zip_eq_zipWith, List.getElem?_zipWith, hx3, hy3]
              obtain ⟨pxy, hcp, hpairsi⟩ := hpc i _ hzip2
              obtain ⟨hcx, hcy⟩ := coordPair_ok hcp
              have hcx2 : toRat? (r.getD iX Value.na) = some pxy.1 := hcx
              have hcy2 : toRat? (r.getD iY Value.na) = some pxy.2 := hcy
              have hTRi : TR[i]? = some (tm35fin_to_wgs84 pxy.1 pxy.2) := by
                rw [hTR, List.getElem?_map, hpairsi]
                rfl
              have hYSi : (TR.map fun p => Value.num p.1)[i]?
                  = some (Value.num (tm35fin_to_wgs84 pxy.1 pxy.2).1) := by
                rw [List.getElem?_map, hTRi]
                rfl
              have hXSi : (TR.map fun p => Value.num p.2)[i]?
                  = some (Value.num (tm35fin_to_wgs84 pxy.1 pxy.2).2) := by
                rw [List.getElem?_map, hTRi]
                rfl
              have hROWSi : ROWS[i]? = some
                  [r.getD iL Value.na, r.getD iP1 Value.na,
                    Value.str (pyJoin ", " [ku, pa]),
                    Value.num (tm35fin_to_wgs84 pxy.1 pxy.2).2,
                    Value.num (tm35fin_to_wgs84 pxy.1 pxy.2).1,
                    r.getD iT Value.na, r.getD iR Value.na] := by
                rw [hROWS, List.getElem?_zipWith, List.getElem?_zipWith, hR3i, hYSi, hXSi]
                rfl
              have hdfKunta : getCell df "Kunta" i = some (r.getD iK Value.na) := by
                unfold getCell getCol
                rw [hiK]
                simp only [Option.map_some', Option.some_bind]
                rw [List.getElem?_map, hri]
                rfl
              have hdfPaikka : getCell df "Paikka" i = some (r.getD iPa Value.na) := by
                unfold getCell getCol
                rw [hiPa]
                simp only [Option.map_some', Option.some_bind]
                rw [List.getElem?_map, hri]
                rfl
              have hdfX : getCell df "X-koord" i = some (r.getD iX Value.na) := by
                unfold getCell getCol
                rw [hiX]
                simp only [Option.map_some', Option.some_bind]
                rw [List.getElem?_map, hri]
                rfl
              have hdfY : getCell df "Y-koord" i = some (r.getD iY Value.na) := by
                unfold getCell getCol
                rw [hiY]
                simp only [Option.map_some', Option.some_bind]
                rw [List.getElem?_map, hri]
                rfl
              have hdfLaji : getCell df "Laji" i = some (r.getD iL Value.na) := by
                unfold getCell getCol
                rw [hiL]
                simp only [Option.map_some', Option.some_bind]
                rw [List.getElem?_map, hri]
                rfl
              have hdfPvm1 : getCell df "Pvm1" i = some (r.getD iP1 Value.na) := by
                unfold getCell getCol
                rw [hiP1]
                simp only [Option.map_some', Option.some_bind]
                rw [List.getElem?_map, hri]
                rfl
              have hdfT : getCell df "rivityyppi" i = some (r.getD iT Value.na) := by
                unfold getCell getCol
                rw [hiT]
                simp only [Option.map_some', Option.some_bind]
                rw [List.getElem?_map, hri]
                rfl
              have hdfR : getCell df "rivejä" i = some (r.getD iR Value.na) := by
                unfold getCell getCol
                rw [hiR]
                simp only [Option.map_some', Option.some_bind]
                rw [List.getElem?_map, hri]
                rfl
              have houtCell : ∀ (c : String) (k : Nat), idxOf? c
                    ["Laji", "Pvm1", "Paikka", "X-koord", "Y-koord", "rivityyppi", "rivejä"]
                    = some k →
                  getCell (⟨["Laji", "Pvm1", "Paikka", "X-koord", "Y-koord", "rivityyppi",
                    "rivejä"], ROWS⟩ : DataFrame) c i = some
                    (([r.getD iL Value.na, r.getD iP1 Value.na,
                      Value.str (pyJoin ", " [ku, pa]),
                      Value.num (tm35fin_to_wgs84 pxy.1 pxy.2).2,
                      Value.num (tm35fin_to_wgs84 pxy.1 pxy.2).1,
                      r.getD iT Value.na, r.getD iR Value.na] : List Value).getD k Value.na) := by
                intro c k hk
                unfold getCell getCol
                rw [hk]
                simp only [Option.map_some', Option.some_bind]
                rw [List.getElem?_map, hROWSi]
                rfl
              refine ⟨ku, pa, pxy.1, pxy.2, r.getD iX Value.na, r.getD iY Value.na,
                by rw [hdfKunta, hkv2], by rw [hdfPaikka, hpv2], hdfX, hcx2, hdfY, hcy2,
                ?_, ?_, ?_, ?_, ?_, ?_, ?_⟩
              · rw [houtCell "Paikka" 2 (by decide)]
                rfl
              · rw [houtCell "Y-koord" 4 (by decide)]
                rfl
              · rw [houtCell "X-koord" 3 (by decide)]
                rfl
              · rw [houtCell "Laji" 0 (by decide), hdfLaji]
                rfl
              · rw [houtCell "Pvm1" 1 (by decide), hdfPvm1]
                rfl
              · rw [houtCell "rivityyppi" 5 (by decide), hdfT]
                rfl
              · rw [houtCell "rivejä" 6 (by decide), hdfR]
                rfl

/-- C1: for every row, the transformer replaces the planar
(easting, northing) pair with the EPSG:3067 → EPSG:4326 transformation's
output, assigning the first return value (latitude) to `Y-koord` and the
second (longitude) to `X-koord`; and the reference point
easting = 385000, northing = 6672000 lands within 10⁻⁶ degrees of the
independently computed (60.168666 N, 24.9274577133 E). -/
theorem C1_geographic_coordinates (df out : DataFrame)
    (hconv : convert_geographical df = .ok out) :
    (∀ (i : Nat) (xv yv : Value) (x y : ℚ),
      getCell df "X-koord" i = some xv → toRat? xv = some x →
      getCell df "Y-koord" i = some yv → toRat? yv = some y →
      getCell out "Y-koord" i = some (Value.num (tm35fin_to_wgs84 x y).1) ∧
      getCell out "X-koord" i = some (Value.num (tm35fin_to_wgs84 x y).2)) ∧
    |(tm35fin_to_wgs84 385000 6672000).1 - 60168666 / 10 ^ 6| < 1 / 10 ^ 6 ∧
    |(tm35fin_to_wgs84 385000 6672000).2 - 249274577133 / 10 ^ 10| < 1 / 10 ^ 6 := by
  refine ⟨?_, ?_, ?_⟩
  · intro i xv yv x y hx htx hy hty
    obtain ⟨k, r, hk, hri, hval⟩ := getCell_eq_some hx
    obtain ⟨ku, pa, x', y', xv', yv', hKu, hPa, hx', htx', hy', hty', hPaO, hYO, hXO,
      hL, hP, hT, hR⟩ := (convert_pointwise df out hconv).2.2 i r hri
    have hxv : xv' = xv := by rw [hx'] at hx; exact Option.some.inj hx
    subst hxv
    have hyv : yv' = yv := by rw [hy'] at hy; exact Option.some.inj hy
    subst hyv
    have hxx : x' = x := by rw [htx'] at htx; exact Option.some.inj htx
    subst hxx
    have hyy : y' = y := by rw [hty'] at hty; exact Option.some.inj hty
    subst hyy
    exact ⟨hYO, hXO⟩
  · rw [abs_lt]
    constructor <;> with_unfolding_all decide
  · rw [abs_lt]
    constructor <;> with_unfolding_all decide

/-- Witness for C1 at the sample table holding the reference point. -/
theorem C1_witness :
    (∃ out, convert_geographical sample_df = .ok out ∧
      getCell out "Y-koord" 0 =
        some (Value.num (tm35fin_to_wgs84 ((385000 : ℤ) : ℚ) ((6672000 : ℤ) : ℚ)).1) ∧
      getCell out "X-koord" 0 =
        some (Value.num (tm35fin_to_wgs84 ((385000 : ℤ) : ℚ) ((6672000 : ℤ) : ℚ)).2)) ∧
    |(tm35fin_to_wgs84 385000 6672000).1 - 60168666 / 10 ^ 6| < 1 / 10 ^ 6 := by
  have hconv : convert_geographical sample_df =
      .ok ⟨["Laji", "Pvm1", "Paikka", "X-koord", "Y-koord", "rivityyppi", "rivejä"],
        [[Value.str "naurulokki", Value.date 2020 2 1, Value.str "Helsinki, Keskuspuisto",
          Value.num (tm35fin_to_wgs84 ((385000 : ℤ) : ℚ) ((6672000 : ℤ) : ℚ)).2,
          Value.num (tm35fin_to_wgs84 ((385000 : ℤ) : ℚ) ((6672000 : ℤ) : ℚ)).1,
          Value.str "1", Value.int 5]]⟩ := by
    rfl
  have h := C1_geographic_coordinates sample_df _ hconv
  refine ⟨⟨_, hconv, ?_⟩, h.2.1⟩
  exact h.1 0 (Value.int 385000) (Value.int 6672000) ((385000 : ℤ) : ℚ) ((6672000 : ℤ) : ℚ)
    (by rfl) (by rfl) (by rfl) (by rfl)

/-- C2: the transformed table has exactly the columns Laji, Pvm1,
Paikka, X-koord, Y-koord, rivityyppi, rivejä (Kunta is dropped), and
every output Paikka value is the input municipality and place joined
with a literal comma-space; in particular "Helsinki" and "Keskuspuisto"
merge to exactly "Helsinki, Keskuspuisto". -/
theorem C2_column_selection (df out : DataFrame)
    (hconv : convert_geographical df = .ok out) :
    out.cols = ["Laji", "Pvm1", "Paikka", "X-koord", "Y-koord", "rivityyppi", "rivejä"] ∧
    "Kunta" ∉ out.cols ∧
    out.rows.length = df.rows.length ∧
    (∀ (i : Nat) (ku pa : String),
      getCell df "Kunta" i = some (Value.str ku) →
      getCell df "Paikka" i = some (Value.str pa) →
      getCell out "Paikka" i = some (Value.str (pyJoin ", " [ku, pa]))) ∧
    pyJoin ", " ["Helsinki", "Keskuspuisto"] = "Helsinki, Keskuspuisto" := by
  obtain ⟨hcols, hlen, hpt⟩ := convert_pointwise df out hconv
  refine ⟨hcols, by rw [hcols]; decide, hlen, ?_, by decide⟩
  intro i ku pa hKu hPa
  obtain ⟨k, r, hk, hri, hval⟩ := getCell_eq_some hKu
  obtain ⟨ku', pa', x', y', xv', yv', hKu', hPa', _, _, _, _, hPaO, _, _, _, _, _, _⟩ :=
    hpt i r hri
  have h1 : ku' = ku := by
    rw [hKu'] at hKu
    exact Value.str.inj (Option.some.inj hKu)
  have h2 : pa' = pa := by
    rw [hPa'] at hPa
    exact Value.str.inj (Option.some.inj hPa)
  subst h1
  subst h2
  exact hPaO

/-- Witness for C2 at the sample table. -/
theorem C2_witness :
    ∃ out, convert_geographical sample_df = .ok out ∧
      out.cols = ["Laji", "Pvm1", "Paikka", "X-koord", "Y-koord", "rivityyppi", "rivejä"] ∧
      getCell out "Paikka" 0 = some (Value.str "Helsinki, Keskuspuisto") := by
  have hconv : convert_geographical sample_df =
      .ok ⟨["Laji", "Pvm1", "Paikka", "X-koord", "Y-koord", "rivityyppi", "rivejä"],
        [[Value.str "naurulokki", Value.date 2020 2 1, Value.str "Helsinki, Keskuspuisto",
          Value.num (tm35fin_to_wgs84 ((385000 : ℤ) : ℚ) ((6672000 : ℤ) : ℚ)).2,
          Value.num (tm35fin_to_wgs84 ((385000 : ℤ) : ℚ) ((6672000 : ℤ) : ℚ)).1,
          Value.str "1", Value.int 5]]⟩ := by
    rfl
  have h := C2_column_selection sample_df _ hconv
  refine ⟨_, hconv, h.1, ?_⟩
  have hme := h.2.2.2.1 0 "Helsinki" "Keskuspuisto" (by rfl) (by rfl)
  rw [hme]
  rfl

/-! ## Claim C6: the Writer's output, read back -/

/-- A false `needsQuote` means the field holds neither separator nor
quote nor line break. -/
theorem needsQuote_false {sep : Char} {f : List Char} (h : needsQuote sep f = false) :
    sep ∉ f ∧ '"' ∉ f := by
  unfold needsQuote at h
  rw [List.any_eq_false] at h
  constructor
  · intro hmem
    have := h sep hmem
    simp at this
  · intro hmem
    have := h '"' hmem
    simp at this

/-- Scanning an unquoted field stops exactly at the separator. -/
theorem takeUnquoted_spec (sep : Char) (f r : List Char) (hf : sep ∉ f)
    (hr : r = [] ∨ r.head? = some sep) :
    takeUnquoted sep (f ++ r) = (f, r) := by
  induction f with
  | nil =>
    cases hr with
    | inl h => subst h; rfl
    | inr h =>
      cases r with
      | nil => rfl
      | cons c t =>
        simp only [List.head?_cons, Option.some.injEq] at h
        subst h
        simp [takeUnquoted]
  | cons c f ih =>
    have hcf : ¬ (sep = c ∨ sep ∈ f) := by simpa [List.mem_cons] using hf
    have hc : c ≠ sep := fun h => hcf (Or.inl h.symm)
    have hrest := ih fun h => hcf (Or.inr h)
    rw [List.cons_append]
    unfold takeUnquoted
    rw [if_neg hc, hrest]

/-- First element of a character list that cannot contain a quote. -/
theorem head?_ne_quote {f : List Char} (h : '"' ∉ f) : f.head? ≠ some '"' := by
  cases f with
  | nil => simp
  | cons c t =>
    simp only [List.head?_cons, ne_eq, Option.some.injEq]
    intro hh
    exact h (hh ▸ List.mem_cons_self c t)

/-- Scanning a quoted field undoes the quote escaping and stops at the
closing quote (provided what follows is not another quote). -/
theorem takeQuoted_spec (f r : List Char) (hr : r.head? ≠ some '"') :
    takeQuoted (escapeQuotes f ++ ('"' :: r)) = (f, r) := by
  induction f with
  | nil =>
    show takeQuoted ('"' :: r) = ([], r)
    unfold takeQuoted
    rw [if_pos (show ('"' : Char) = '"' from rfl)]
    cases r with
    | nil => rfl
    | cons c2 t =>
      have hc2 : c2 ≠ '"' := by
        intro h
        exact hr (by rw [List.head?_cons, h])
      dsimp only
      rw [if_neg hc2]
  | cons c f ih =>
    by_cases hc : c = '"'
    · subst hc
      have hesc : escapeQuotes ('"' :: f) = '"' :: '"' :: escapeQuotes f := by
        simp [escapeQuotes]
      rw [hesc, List.cons_append, List.cons_append]
      unfold takeQuoted
      rw [if_pos (show ('"' : Char) = '"' from rfl)]
      dsimp only
      rw [if_pos (show ('"' : Char) = '"' from rfl), ih]
    · have hesc : escapeQuotes (c :: f) = c :: escapeQuotes f := by
        simp [escapeQuotes, hc]
      rw [hesc, List.cons_append]
      unfold takeQuoted
      rw [if_neg hc, ih]

/-- Joining at least two pieces starts with the first piece and
the separator. -/
theorem charJoin_cons_cons (sep : List Char) (x y : List Char) (rest : List (List Char)) :
    charJoin sep (x :: y :: rest) = x ++ sep ++ charJoin sep (y :: rest) := by
  rfl

/-- One splitting step, ending the line. -/
theorem splitFieldsAux_last (sep : Char) (n : Nat) (l f : List Char)
    (h : (if l.head? = some '"' then takeQuoted l.tail else takeUnquoted sep l) = (f, [])) :
    splitFieldsAux sep (n + 1) l = [f] := by
  unfold splitFieldsAux
  simp only [h]

/-- One splitting step, consuming a separator and continuing. -/
theorem splitFieldsAux_step (sep : Char) (n : Nat) (l f : List Char) (c : Char) (r2 : List Char)
    (h : (if l.head? = some '"' then takeQuoted l.tail
          else takeUnquoted sep l) = (f, c :: r2)) :
    splitFieldsAux sep (n + 1) l = f :: splitFieldsAux sep n r2 := by
  conv_lhs => unfold splitFieldsAux
  simp only [h]

/-- Splitting undoes rendering-and-joining, line level. -/
theorem splitFieldsAux_spec (sep : Char) (hsep : sep ≠ '"') :
    ∀ (fields : List (List Char)) (fuel : Nat),
      fields ≠ [] → fields.length ≤ fuel →
      splitFieldsAux sep fuel (charJoin [sep] (fields.map (renderFieldL sep))) = fields := by
  intro fields
  induction fields with
  | nil => intro fuel h _; exact absurd rfl h
  | cons f fields ih =>
    intro fuel _ hfuel
    cases fuel with
    | zero => simp at hfuel
    | succ n =>
      cases fields with
      | nil =>
        show splitFieldsAux sep (n + 1) (renderFieldL sep f) = [f]
        cases hq : needsQuote sep f with
        | true =>
          have hrf : renderFieldL sep f = '"' :: (escapeQuotes f ++ ['"']) := by
            simp [renderFieldL, hq]
          rw [hrf]
          apply splitFieldsAux_last
          rw [if_pos (show (('"' :: (escapeQuotes f ++ ['"'])).head?) = some '"' from rfl)]
          exact takeQuoted_spec f [] (by simp)
        | false =>
          obtain ⟨hs, hq2⟩ := needsQuote_false hq
          have hrf : renderFieldL sep f = f := by simp [renderFieldL, hq]
          rw [hrf]
          apply splitFieldsAux_last
          rw [if_neg (head?_ne_quote hq2)]
          have := takeUnquoted_spec sep f [] hs (Or.inl rfl)
          rwa [List.append_nil] at this
      | cons g rest =>
        have hjoin : charJoin [sep] ((f :: g :: rest).map (renderFieldL sep)) =
            renderFieldL sep f ++ sep ::
              charJoin [sep] ((g :: rest).map (renderFieldL sep)) := by
          rw [List.map_cons, List.map_cons, charJoin_cons_cons, ← List.map_cons]
          simp [List.append_assoc]
        rw [hjoin]
        have hlen : (g :: rest).length ≤ n := by
          simpa [Nat.succ_le_succ_iff] using hfuel
        have hihs := ih n (by simp) hlen
        cases hq : needsQuote sep f with
        | true =>
          have hrf : renderFieldL sep f = '"' :: (escapeQuotes f ++ ['"']) := by
            simp [renderFieldL, hq]
          rw [hrf]
          have hassoc : ('"' :: (escapeQuotes f ++ ['"'])) ++ sep ::
              charJoin [sep] ((g :: rest).map (renderFieldL sep)) =
              '"' :: (escapeQuotes f ++ ('"' :: (sep ::
                charJoin [sep] ((g :: rest).map (renderFieldL sep))))) := by
            simp [List.append_assoc]
          rw [hassoc]
          rw [splitFieldsAux_step sep n _ f sep
            (charJoin [sep] ((g :: rest).map (renderFieldL sep))) ?hstep, hihs]
          case hstep =>
            rw [if_pos (show ('"' :: (escapeQuotes f ++ ('"' :: (sep ::
              charJoin [sep] ((g :: rest).map (renderFieldL sep)))))).head? = some '"' from rfl)]
            exact takeQuoted_spec f _
              (by simp only [List.head?_cons, ne_eq, Option.some.injEq]; exact hsep)
        | false =>
          obtain ⟨hs, hq2⟩ := needsQuote_false hq
          have hrf : renderFieldL sep f = f := by simp [renderFieldL, hq]
          rw [hrf]
          rw [splitFieldsAux_step sep n _ f sep
            (charJoin [sep] ((g :: rest).map (renderFieldL sep))) ?hstep2, hihs]
          case hstep2 =>
            have hhd : (f ++ sep :: charJoin [sep]
                ((g :: rest).map (renderFieldL sep))).head? ≠ some '"' := by
              cases f with
              | nil => simp [ne_eq, hsep]
              | cons c t =>
                simp only [List.cons_append, List.head?_cons, ne_eq, Option.some.injEq]
                intro h
                exact hq2 (h ▸ List.mem_cons_self c t)
            rw [if_neg hhd]
            exact takeUnquoted_spec sep f _ hs (Or.inr rfl)

/-- Join `pyJoin` at the character level. -/
theorem pyJoin_data (sep : String) (xs : List String) :
    (pyJoin sep xs).data = charJoin sep.data (xs.map String.data) := by
  induction xs with
  | nil => rfl
  | cons x xs ih =>
    cases xs with
    | nil => rfl
    | cons y ys =>
      show (x ++ sep ++ pyJoin sep (y :: ys)).data = _
      rw [String.data_append, String.data_append, ih]
      rfl

/-- One `foldr` step of `splitChar`. -/
theorem splitChar_cons (c x : Char) (t : List Char) :
    splitChar c (x :: t) =
      if x = c then [] :: splitChar c t
      else
        match splitChar c t with
        | [] => [[x]]
        | f :: rest => (x :: f) :: rest := rfl

/-- Splitting text free of the separator. -/
theorem splitChar_no_sep (c : Char) (a : List Char) (ha : c ∉ a) : splitChar c a = [a] := by
  induction a with
  | nil => rfl
  | cons x t ih =>
    have hx : ¬ (c = x ∨ c ∈ t) := by simpa [List.mem_cons] using ha
    have hxc : x ≠ c := fun h => hx (Or.inl h.symm)
    have iht := ih fun h => hx (Or.inr h)
    rw [splitChar_cons, if_neg hxc, iht]

/-- Splitting past the first separator occurrence. -/
theorem splitChar_append_cons (c : Char) (a b : List Char) (ha : c ∉ a) :
    splitChar c (a ++ c :: b) = a :: splitChar c b := by
  induction a with
  | nil =>
    show splitChar c (c :: b) = [] :: splitChar c b
    rw [splitChar_cons, if_pos rfl]
  | cons x t ih =>
    have hx : ¬ (c = x ∨ c ∈ t) := by simpa [List.mem_cons] using ha
    have hxc : x ≠ c := fun h => hx (Or.inl h.symm)
    have iht := ih fun h => hx (Or.inr h)
    rw [List.cons_append, splitChar_cons, if_neg hxc, iht]

/-- Splitting a newline-joined, newline-terminated text recovers the
lines plus one empty trailer. -/
theorem splitChar_join (c : Char) :
    ∀ (lls : List (List Char)), lls ≠ [] → (∀ l ∈ lls, c ∉ l) →
      splitChar c (charJoin [c] lls ++ [c]) = lls ++ [[]] := by
  intro lls
  induction lls with
  | nil => intro h _; exact absurd rfl h
  | cons l lls ih =>
    intro _ hmem
    cases lls with
    | nil =>
      show splitChar c (l ++ c :: []) = [l, []]
      rw [splitChar_append_cons c l [] (hmem l (by simp))]
      rfl
    | cons g rest =>
      rw [charJoin_cons_cons]
      have hassoc : (l ++ [c] ++ charJoin [c] (g :: rest)) ++ [c]
          = l ++ c :: (charJoin [c] (g :: rest) ++ [c]) := by
        simp [List.append_assoc]
      rw [hassoc, splitChar_append_cons c _ _ (hmem l (by simp)),
        ih (by simp) fun x hx => hmem x (List.mem_cons_of_mem l hx)]
      rfl

/-- The quote escaping introduces no characters beyond quotes. -/
theorem mem_escapeQuotes {x : Char} : ∀ {f : List Char}, x ∈ escapeQuotes f → x ∈ f ∨ x = '"' := by
  intro f
  induction f with
  | nil => intro h; simp [escapeQuotes] at h
  | cons c t ih =>
    intro h
    by_cases hc : c = '"'
    · subst hc
      rw [show escapeQuotes ('"' :: t) = '"' :: '"' :: escapeQuotes t from by simp [escapeQuotes]]
          at h
      rcases List.mem_cons.1 h with h1 | h2
      · exact Or.inr h1
      · rcases List.mem_cons.1 h2 with h3 | h4
        · exact Or.inr h3
        · rcases ih h4 with h5 | h6
          · exact Or.inl (List.mem_cons_of_mem _ h5)
          · exact Or.inr h6
    · rw [show escapeQuotes (c :: t) = c :: escapeQuotes t from by simp [escapeQuotes, hc]] at h
      rcases List.mem_cons.1 h with h1 | h2
      · exact Or.inl (h1 ▸ List.mem_cons_self c t)
      · rcases ih h2 with h3 | h4
        · exact Or.inl (List.mem_cons_of_mem _ h3)
        · exact Or.inr h4

/-- Rendering a field introduces no characters beyond quotes. -/
theorem mem_renderFieldL {sep x : Char} {f : List Char} (h : x ∈ renderFieldL sep f) :
    x ∈ f ∨ x = '"' := by
  unfold renderFieldL at h
  split at h
  · rcases List.mem_cons.1 h with h1 | h2
    · exact Or.inr h1
    · rcases List.mem_append.1 h2 with h3 | h4
      · exact mem_escapeQuotes h3
      · simp at h4
        exact Or.inr h4
  · exact Or.inl h

/-- Characters of a join come from the separator or the pieces. -/
theorem mem_charJoin {x : Char} {sep : List Char} :
    ∀ {lls : List (List Char)}, x ∈ charJoin sep lls → x ∈ sep ∨ ∃ l ∈ lls, x ∈ l := by
  intro lls
  induction lls with
  | nil => intro h; simp [charJoin] at h
  | cons l lls ih =>
    intro h
    cases lls with
    | nil => exact Or.inr ⟨l, by simp, h⟩
    | cons g rest =>
      rw [charJoin_cons_cons] at h
      rcases List.mem_append.1 h with h1 | h2
      · rcases List.mem_append.1 h1 with h3 | h4
        · exact Or.inr ⟨l, by simp, h3⟩
        · exact Or.inl h4
      · rcases ih h2 with h5 | ⟨l2, hl2, hx2⟩
        · exact Or.inl h5
        · exact Or.inr ⟨l2, List.mem_cons_of_mem l hl2, hx2⟩

/-- A join of at least two pieces is nonempty (the separator shows). -/
theorem charJoin_ne_nil {sep : Char} {lls : List (List Char)} (h : 2 ≤ lls.length) :
    charJoin [sep] lls ≠ [] := by
  match lls, h with
  | x :: y :: rest, _ =>
    rw [charJoin_cons_cons]
    cases x <;> simp

/-- Fuel adequacy: a line has at least one character per field beyond
the first. -/
theorem length_le_charJoin (sep : Char) :
    ∀ (lls : List (List Char)), lls.length ≤ (charJoin [sep] lls).length + 1 := by
  intro lls
  induction lls with
  | nil => simp [charJoin]
  | cons l lls ih =>
    cases lls with
    | nil => simp [charJoin]
    | cons g rest =>
      rw [charJoin_cons_cons]
      simp only [List.length_cons, List.length_append] at ih ⊢
      omega

/-- Packing with `String.mk` undoes `String.data`, list-wise. -/
theorem mapMkData : ∀ (xs : List String), (xs.map String.data).map String.mk = xs := by
  intro xs
  induction xs with
  | nil => rfl
  | cons x t ih => simp [ih]

/-- Re-splitting one rendered line recovers the original fields. -/
theorem splitFields_line (fields : List String) (h2 : 2 ≤ fields.length) :
    (splitFields ',' (charJoin [','] ((fields.map String.data).map (renderFieldL ',')))).map
      String.mk = fields := by
  unfold splitFields
  rw [splitFieldsAux_spec ',' (by decide) (fields.map String.data)
    _ (by cases fields with | nil => simp at h2 | cons x t => simp) ?hfuel]
  · exact mapMkData fields
  case hfuel =>
    have := length_le_charJoin ',' ((fields.map String.data).map (renderFieldL ','))
    simpa using this

/-- Pointwise-equal functions map lists equally. -/
theorem map_congr_fn {α β : Type} {f g : α → β} :
    ∀ {l : List α}, (∀ a ∈ l, f a = g a) → l.map f = l.map g := by
  intro l
  induction l with
  | nil => intro _; rfl
  | cons x t ih =>
    intro h
    simp only [List.map_cons]
    rw [h x (by simp), ih fun a ha => h a (List.mem_cons_of_mem x ha)]

/-- C6 (amended, positive part): re-parsing the Writer's output with the
Writer's own comma separator and quoting rules recovers the column names
and every cell exactly as the Writer rendered it — nothing is lost at
the text level.  (Line breaks inside cells and single-column tables are
excluded; the transformed tables at issue have seven columns and their
cells render without line breaks.) -/
theorem C6_writer_roundtrip (df : DataFrame)
    (hwf : df.WF) (hcols2 : 2 ≤ df.cols.length)
    (hcolsnb : ∀ c ∈ df.cols, noLineBreak c.data)
    (hcells : ∀ r ∈ df.rows, ∀ v ∈ r, noLineBreak (renderValue v).data) :
    parse_fields ',' (write_csv_content df) =
      df.cols :: df.rows.map fun r => r.map renderValue := by
  have hline : ∀ (fs : List String),
      (pyJoin "," (fs.map fun s => renderField ',' s)).data
        = charJoin [','] ((fs.map String.data).map (renderFieldL ',')) := by
    intro fs
    rw [pyJoin_data]
    congr 1
    simp only [List.map_map]
    rfl
  have h2all : ∀ fs ∈ (df.cols :: df.rows.map fun r => r.map renderValue), 2 ≤ fs.length := by
    intro fs hfs
    rcases List.mem_cons.1 hfs with h | h
    · subst h; exact hcols2
    · obtain ⟨r, hr, hfs2⟩ := List.mem_map.1 h
      subst hfs2
      simpa [hwf r hr] using hcols2
  have hnb : ∀ fs ∈ (df.cols :: df.rows.map fun r => r.map renderValue),
      ∀ s ∈ fs, noLineBreak s.data := by
    intro fs hfs s hs
    rcases List.mem_cons.1 hfs with h | h
    · subst h; exact hcolsnb s hs
    · obtain ⟨r, hr, hfs2⟩ := List.mem_map.1 h
      subst hfs2
      obtain ⟨v, hv, hs2⟩ := List.mem_map.1 hs
      subst hs2
      exact hcells r hr v hv
  have hlists : ((pyJoin "," (df.cols.map fun c => renderField ',' c)) ::
      df.rows.map fun r => pyJoin "," (r.map fun v => renderField ',' (renderValue v))).map
        String.data
      = (df.cols :: df.rows.map fun r => r.map renderValue).map
          fun fs => charJoin [','] ((fs.map String.data).map (renderFieldL ',')) := by
    rw [List.map_cons, List.map_cons]
    refine congrArg₂ List.cons ?_ ?_
    · exact hline df.cols
    · rw [List.map_map, List.map_map]
      apply map_congr_fn
      intro r hr
      show (pyJoin "," (r.map fun v => renderField ',' (renderValue v))).data = _
      rw [show (r.map fun v => renderField ',' (renderValue v))
          = ((r.map renderValue).map fun s => renderField ',' s) from by
        rw [List.map_map]; rfl]
      exact hline (r.map renderValue)
  have hcontent : (write_csv_content df).data =
      charJoin ['\n'] ((df.cols :: df.rows.map fun r => r.map renderValue).map
        fun fs => charJoin [','] ((fs.map String.data).map (renderFieldL ','))) ++ ['\n'] := by
    unfold write_csv_content
    rw [String.data_append, pyJoin_data, hlists]
  unfold parse_fields
  rw [hcontent]
  rw [splitChar_join '\n' _ (by simp) ?hnomem]
  case hnomem =>
    intro l hl
    obtain ⟨fs, hfs, hl2⟩ := List.mem_map.1 hl
    subst hl2
    intro hmem
    rcases mem_charJoin hmem with h1 | ⟨rf, hrf, h3⟩
    · simp at h1
    · obtain ⟨fd, hfd, hrf2⟩ := List.mem_map.1 hrf
      subst hrf2
      obtain ⟨s, hsmem, hfd2⟩ := List.mem_map.1 hfd
      subst hfd2
      rcases mem_renderFieldL h3 with h4 | h5
      · exact (hnb fs hfs s hsmem).1 h4
      · simp at h5
  rw [List.filter_append]
  rw [show (([[]] : List (List Char)).filter (· ≠ [])) = [] from by simp, List.append_nil]
  rw [List.filter_eq_self.2 ?hne2]
  case hne2 =>
    intro l hl
    obtain ⟨fs, hfs, hl2⟩ := List.mem_map.1 hl
    subst hl2
    have hne := @charJoin_ne_nil ',' ((fs.map String.data).map (renderFieldL ','))
      (by simpa using h2all fs hfs)
    simpa using hne
  rw [List.map_map]
  have hid : ∀ fs ∈ (df.cols :: df.rows.map fun r => r.map renderValue),
      ((fun line => (splitFields ',' line).map String.mk) ∘
        fun fs => charJoin [','] ((fs.map String.data).map (renderFieldL ','))) fs = id fs := by
    intro fs hfs
    show (splitFields ',' (charJoin [','] ((fs.map String.data).map (renderFieldL ',')))).map
      String.mk = fs
    exact splitFields_line fs (h2all fs hfs)
  rw [map_congr_fn hid, List.map_id]

/-- C6 fails as stated: feeding the Writer's output of a transformed
table back through the Ingestor does not reproduce anything — the
Ingestor splits on `#` while the Writer joined with `,`, so the whole
header becomes one column, and the `Määrä` column the Ingestor requires
is missing from transformed output anyway; ingestion dies with a
`KeyError` instead of producing a table. -/
theorem C6_counterexample :
    read_csv (write_csv_content
      (⟨["Laji", "Pvm1", "Paikka", "X-koord", "Y-koord", "rivityyppi", "rivejä"],
        [[Value.str "naurulokki", Value.date 2020 2 1, Value.str "Helsinki, Keskuspuisto",
          Value.num (2493 / 100), Value.num (6017 / 100), Value.str "1", Value.int 5]]⟩
        : DataFrame)) = .error (.keyError "Määrä") := by
  with_unfolding_all rfl

/-- Witness for C6 (amended) on a transformed table with a quoted
comma-space place name and fixed-format coordinates. -/
theorem C6_witness :
    parse_fields ',' (write_csv_content
      (⟨["Laji", "Pvm1", "Paikka", "X-koord", "Y-koord", "rivityyppi", "rivejä"],
        [[Value.str "naurulokki", Value.date 2020 2 1, Value.str "Helsinki, Keskuspuisto",
          Value.num (2493 / 100), Value.num (6017 / 100), Value.str "1", Value.int 5]]⟩
        : DataFrame)) =
      ["Laji", "Pvm1", "Paikka", "X-koord", "Y-koord", "rivityyppi", "rivejä"] ::
        [[Value.str "naurulokki", Value.date 2020 2 1, Value.str "Helsinki, Keskuspuisto",
          Value.num (2493 / 100), Value.num (6017 / 100), Value.str "1",
          Value.int 5]].map fun r => r.map renderValue :=
  C6_writer_roundtrip
    ⟨["Laji", "Pvm1", "Paikka", "X-koord", "Y-koord", "rivityyppi", "rivejä"],
      [[Value.str "naurulokki", Value.date 2020 2 1, Value.str "Helsinki, Keskuspuisto",
        Value.num (2493 / 100), Value.num (6017 / 100), Value.str "1", Value.int 5]]⟩
    (by intro r hr; simp at hr; subst hr; rfl)
    (by decide)
    (by decide)
    (by with_unfolding_all decide)

end Tiira
